import Mathlib

/-!
Verification of the cascading compiler of the ethos-n driver stack support
library against its natural-language specification.

The definitions below are a shallow embedding of the C++ sources under
`driver/support_library`.  Machine integers are modelled as `Nat` with an
explicit `% 2^w` wherever the source performs a narrowing `static_cast`.
A few helper functions used by the embedded code live in headers that are
not part of the source tree we were given; each such helper is modelled
from the specification text and carries a doc comment saying so.
-/

namespace EthosN

/-- Tensor shape `(N, H, W, C)`, mirroring `TensorShape = std::array<uint32_t, 4>`
with `GetHeight(s) = s[1]`, `GetWidth(s) = s[2]`, `GetChannels(s) = s[3]`. -/
structure TensorShape where
  n : Nat
  h : Nat
  w : Nat
  c : Nat
deriving DecidableEq

/-- Modelled from the spec: `div_round_up` (§4.2 rounding helpers).
`utils::DivRoundUp` is declared in `Utils.hpp`, which is not under `src/`. -/
def DivRoundUp (a b : Nat) : Nat := (a + b - 1) / b

/-- Modelled from the spec: `round_up(x, m)` (§4.2 rounding helpers).
`utils::RoundUpToNearestMultiple` is declared in `Utils.hpp`, which is not under `src/`. -/
def RoundUpToNearestMultiple (x m : Nat) : Nat := DivRoundUp x m * m

/-- Modelled from the spec: the brick-group shape is fixed at `(1, 8, 8, 16)`
(§4.1 and the glossary). -/
def brickGroupShape : TensorShape := ⟨1, 8, 8, 16⟩

/-- Modelled from the spec: `round_up_hw_to_brick_group(shape)` rounds the H and W
dimensions up to the brick-group shape (§4.2).  `utils::RoundUpHeightAndWidthToBrickGroup`
is declared in `Utils.hpp`, which is not under `src/`. -/
def RoundUpHeightAndWidthToBrickGroup (s : TensorShape) : TensorShape :=
  { s with
    h := RoundUpToNearestMultiple s.h brickGroupShape.h
    w := RoundUpToNearestMultiple s.w brickGroupShape.w }

/-- `GetNumElements` over the four dimensions (used by `GenerateStripes`). -/
def GetNumElements (s : TensorShape) : Nat := s.n * s.h * s.w * s.c

/-- `CreateStripe` from `StripeHelper.cpp` (lines 339-350): per dimension take the
encoding when non-zero, else the full tensor length, clamp to the tensor, then round
H and W up to the brick group and C up to `channelsRounding`. -/
def CreateStripe (input inputEncoding : TensorShape) (channelsRounding : Nat) : TensorShape :=
  let pick : Nat → Nat → Nat := fun enc inp => min (if enc ≠ 0 then enc else inp) inp
  let s0 : TensorShape :=
    ⟨pick inputEncoding.n input.n, pick inputEncoding.h input.h,
     pick inputEncoding.w input.w, pick inputEncoding.c input.c⟩
  let s1 := RoundUpHeightAndWidthToBrickGroup s0
  { s1 with c := RoundUpToNearestMultiple s1.c channelsRounding }

/-- The stripe shape described by the spec sentence for `create_stripe`
(§4.2): `encoding[i] = 0` means full length in dimension `i`, otherwise the
encoding clamped to the tensor size, then H/W rounded up to the brick group
and C rounded up to the channel rounding. -/
def createStripeSpec (tensor encoding : TensorShape) (channelsRounding : Nat) : TensorShape :=
  let dim : Nat → Nat → Nat := fun enc t => if enc = 0 then t else min enc t
  ⟨dim encoding.n tensor.n,
   RoundUpToNearestMultiple (dim encoding.h tensor.h) brickGroupShape.h,
   RoundUpToNearestMultiple (dim encoding.w tensor.w) brickGroupShape.w,
   RoundUpToNearestMultiple (dim encoding.c tensor.c) channelsRounding⟩

theorem createStripe_pick_eq (enc inp : Nat) :
    min (if enc ≠ 0 then enc else inp) inp = if enc = 0 then inp else min enc inp := by
  by_cases h : enc = 0 <;> simp [h]

/-- **C5**: for every tensor shape, encoding and channel rounding, `CreateStripe`
returns exactly the stripe described by the spec: full length where the encoding
is zero, otherwise the encoding clamped to the tensor, with H/W rounded up to the
brick group and C rounded up to the channel rounding. -/
theorem claim_C5_createStripe_matches_spec (tensor encoding : TensorShape)
    (channelsRounding : Nat) :
    CreateStripe tensor encoding channelsRounding =
      createStripeSpec tensor encoding channelsRounding := by
  unfold CreateStripe createStripeSpec RoundUpHeightAndWidthToBrickGroup
  simp only [createStripe_pick_eq]

/-! ## Command-stream agent data (CommandStream.hpp)

Only the numeric sub-fields read or written by the embedded compiler functions
are modelled; 16-bit fields are `Nat` values with an explicit `% 65536` where
the source narrows, 8-bit fields with `% 256`. -/

/-- `TensorSize<uint16_t>` (height, width, channels) from `CommandStream.hpp`. -/
structure TensorSizeU16 where
  height : Nat
  width : Nat
  channels : Nat
deriving DecidableEq

/-- `MceSWorkSize<uint16_t>` (ofmHeight, ofmWidth, ofmChannels, ifmChannels). -/
structure MceSWorkSize where
  ofmHeight : Nat
  ofmWidth : Nat
  ofmChannels : Nat
  ifmChannels : Nat
deriving DecidableEq

/-- `FilterShape` (width, height), `uint8_t` fields. -/
structure FilterShape where
  width : Nat
  height : Nat
deriving DecidableEq

/-- Stripe-shape fields of `FmSData` (Ifm/Ofm streamer common data). -/
structure FmSData where
  dfltStripeSize : TensorSizeU16
  edgeStripeSize : TensorSizeU16
  numStripes : TensorSizeU16
  stripeIdStrides : TensorSizeU16
deriving DecidableEq

/-- Stripe-shape fields of `MceS` (MCE scheduler data), plus the filter shape. -/
structure MceSData where
  dfltStripeSize : MceSWorkSize
  edgeStripeSize : MceSWorkSize
  numStripes : MceSWorkSize
  stripeIdStrides : MceSWorkSize
  filterShape : FilterShape
deriving DecidableEq

/-- `StreamersUtils::SetStripeIdStrides` (CascadingCompilerUtils.hpp lines 192-205),
`TraversalOrder::Xyz` case (the only one; anything else hits `assert(false)`):
computes the stripe-ID strides of an IFM/OFM streamer from its stripe counts.
`NumericCast<uint16_t>` on the product is modelled as `% 65536`. -/
def fmsSetStripeIdStrides (numStripes : TensorSizeU16) : TensorSizeU16 :=
  { height := numStripes.width * numStripes.channels % 65536
    width := numStripes.channels
    channels := 1 }

/-- `MceSUtils::SetStripeIdStrides` (CascadingCompilerUtils.hpp lines 304-320),
`TraversalOrder::Xyz` case. -/
def mcesSetStripeIdStrides (numStripes : MceSWorkSize) : MceSWorkSize :=
  { ofmHeight := numStripes.ifmChannels * numStripes.ofmWidth % 65536
    ofmWidth := numStripes.ifmChannels
    ofmChannels := numStripes.ifmChannels * numStripes.ofmWidth * numStripes.ofmHeight % 65536
    ifmChannels := 1 }

/-- `PleSUtils::SetStripeIdStrides` (CascadingCompilerUtils.hpp lines 419-433),
`TraversalOrder::Xyz` case. -/
def plesSetStripeIdStrides (numStripes : TensorSizeU16) : TensorSizeU16 :=
  { height := numStripes.width
    width := 1
    channels := numStripes.width * numStripes.height % 65536 }

/-- The coordinate mapping used by the firmware for one dimension:
`coord[d] = (stripe_id / stride[d]) mod num_stripes[d]`. -/
def stripeCoord (stride num stripeId : Nat) : Nat := stripeId / stride % num

/-- All three coordinates of an FM-streamer or PLE-scheduler stripe id. -/
def stripeCoords (strides numStripes : TensorSizeU16) (stripeId : Nat) : TensorSizeU16 :=
  ⟨stripeCoord strides.height numStripes.height stripeId,
   stripeCoord strides.width numStripes.width stripeId,
   stripeCoord strides.channels numStripes.channels stripeId⟩

/-- All four coordinates of an MCE-scheduler stripe id. -/
def mceStripeCoords (strides numStripes : MceSWorkSize) (stripeId : Nat) : MceSWorkSize :=
  ⟨stripeCoord strides.ofmHeight numStripes.ofmHeight stripeId,
   stripeCoord strides.ofmWidth numStripes.ofmWidth stripeId,
   stripeCoord strides.ofmChannels numStripes.ofmChannels stripeId,
   stripeCoord strides.ifmChannels numStripes.ifmChannels stripeId⟩

/-- Mixed-radix decomposition of a stripe id in the order W fastest, then H,
then C (the traversal order the spec claims for FM streamers, and the one the
code realises for PLE schedulers). -/
def orderWfastestHC (numStripes : TensorSizeU16) (stripeId : Nat) : TensorSizeU16 :=
  ⟨stripeId / numStripes.width % numStripes.height,
   stripeId % numStripes.width,
   stripeId / (numStripes.width * numStripes.height) % numStripes.channels⟩

/-- Mixed-radix decomposition of a stripe id in the order C fastest, then W,
then H (the order the code realises for IFM/OFM streamers). -/
def orderCfastestWH (numStripes : TensorSizeU16) (stripeId : Nat) : TensorSizeU16 :=
  ⟨stripeId / (numStripes.channels * numStripes.width) % numStripes.height,
   stripeId / numStripes.channels % numStripes.width,
   stripeId % numStripes.channels⟩

/-- Mixed-radix decomposition of an MCE stripe id in the order IC fastest, then
OW, then OH, then OC (claimed and realised for MCE schedulers). -/
def orderICfastestOWOHOC (numStripes : MceSWorkSize) (stripeId : Nat) : MceSWorkSize :=
  ⟨stripeId / (numStripes.ifmChannels * numStripes.ofmWidth) % numStripes.ofmHeight,
   stripeId / numStripes.ifmChannels % numStripes.ofmWidth,
   stripeId / (numStripes.ifmChannels * numStripes.ofmWidth * numStripes.ofmHeight) %
     numStripes.ofmChannels,
   stripeId % numStripes.ifmChannels⟩

/-- **C2, counterexample**: for an IFM/OFM streamer with stripe counts
`(H, W, C) = (1, 2, 2)` the strides computed by the code decode stripe id 1 to
coordinates `(H, W, C) = (0, 0, 1)`, not to the `(0, 1, 0)` demanded by the
claimed W-fastest-then-H-then-C order. -/
theorem claim_C2_fm_order_counterexample :
    stripeCoords (fmsSetStripeIdStrides ⟨1, 2, 2⟩) ⟨1, 2, 2⟩ 1 ≠
      orderWfastestHC ⟨1, 2, 2⟩ 1 := by decide

/-- **C2, amended**: the precomputed stripe-id strides realise the coordinate
mapping `coord[d] = (stripe_id / stride[d]) mod num_stripes[d]` with C fastest,
then W, then H for IFM/OFM streamers; IC fastest, then OW, then OH, then OC for
MCE schedulers; and W fastest, then H, then C for PLE schedulers. -/
theorem claim_C2_stripe_id_strides_realise_orders
    (nfm : TensorSizeU16) (nmce : MceSWorkSize) (nple : TensorSizeU16)
    (hfm : nfm.width * nfm.channels < 65536)
    (hmce1 : nmce.ifmChannels * nmce.ofmWidth < 65536)
    (hmce2 : nmce.ifmChannels * nmce.ofmWidth * nmce.ofmHeight < 65536)
    (hple : nple.width * nple.height < 65536)
    (stripeId : Nat) :
    stripeCoords (fmsSetStripeIdStrides nfm) nfm stripeId =
        orderCfastestWH nfm stripeId ∧
    mceStripeCoords (mcesSetStripeIdStrides nmce) nmce stripeId =
        orderICfastestOWOHOC nmce stripeId ∧
    stripeCoords (plesSetStripeIdStrides nple) nple stripeId =
        orderWfastestHC nple stripeId := by
  have hfm2 : nfm.channels * nfm.width < 65536 := by rwa [Nat.mul_comm]
  refine ⟨?_, ?_, ?_⟩
  · simp only [stripeCoords, fmsSetStripeIdStrides, orderCfastestWH, stripeCoord,
      Nat.mul_comm nfm.width nfm.channels, Nat.mod_eq_of_lt hfm2, Nat.div_one]
  · simp only [mceStripeCoords, mcesSetStripeIdStrides, orderICfastestOWOHOC, stripeCoord,
      Nat.mod_eq_of_lt hmce1, Nat.mod_eq_of_lt hmce2, Nat.div_one]
  · simp only [stripeCoords, plesSetStripeIdStrides, orderWfastestHC, stripeCoord,
      Nat.mod_eq_of_lt hple, Nat.div_one]

/-- Witness for the amended C2 theorem at concrete stripe counts and stripe id 13. -/
theorem claim_C2_stripe_id_strides_witness :
    stripeCoords (fmsSetStripeIdStrides ⟨3, 2, 5⟩) ⟨3, 2, 5⟩ 13 =
        orderCfastestWH ⟨3, 2, 5⟩ 13 ∧
    mceStripeCoords (mcesSetStripeIdStrides ⟨4, 3, 2, 5⟩) ⟨4, 3, 2, 5⟩ 13 =
        orderICfastestOWOHOC ⟨4, 3, 2, 5⟩ 13 ∧
    stripeCoords (plesSetStripeIdStrides ⟨3, 4, 2⟩) ⟨3, 4, 2⟩ 13 =
        orderWfastestHC ⟨3, 4, 2⟩ 13 :=
  claim_C2_stripe_id_strides_realise_orders ⟨3, 2, 5⟩ ⟨4, 3, 2, 5⟩ ⟨3, 4, 2⟩
    (by decide) (by decide) (by decide) (by decide) 13

/-! ## Dependency filling (CascadingCompiler.cpp) -/

/-- `Ratio` from `CommandStream.hpp` (`uint8_t other; uint8_t self`). -/
structure Ratio where
  other : Nat
  self : Nat
deriving DecidableEq

/-- The ratio/boundary fields of a `Dependency` (`CommandStream.hpp`). -/
structure DependencyFields where
  outerRatio : Ratio
  innerRatio : Ratio
  boundary : Int
deriving DecidableEq

/-- `CascadingCompiler::FillConsumerAgentDependency`, consumer `MCE_SCHEDULER`,
producer `IFM_STREAMER` branch (CascadingCompiler.cpp lines 522-556): fills the
read-after-write dependency of an MCE scheduler on its IFM streamer.  Each
`static_cast<uint8_t>` is modelled as `% 256`. -/
def FillConsumerAgentDependencyMceIfm (mce : MceSData) (ifm : FmSData) : DependencyFields :=
  let outerOther :=
    ifm.numStripes.width * ifm.numStripes.height * ifm.numStripes.channels % 256
  let outerSelf :=
    mce.numStripes.ofmHeight * mce.numStripes.ofmWidth * mce.numStripes.ifmChannels % 256
  let widthRatio := mce.numStripes.ofmWidth / ifm.dfltStripeSize.width % 256
  let heightRatio := mce.numStripes.ofmHeight / ifm.dfltStripeSize.height % 256
  { outerRatio := { other := outerOther, self := outerSelf }
    innerRatio := { other := widthRatio * heightRatio % 256, self := 1 }
    boundary :=
      if (ifm.numStripes.height > 1 ∧ mce.filterShape.height > 1) ∨
         (ifm.numStripes.width > 1 ∧ mce.filterShape.width > 1) then 1 else 0 }

/-- The inner ratio the claim states for the IFM→MCE read dependency:
`w_ratio · h_ratio` with `w_ratio = mce_out_W / ifm_stripe_W` and
`h_ratio = mce_out_H / ifm_stripe_H`, i.e. the ratio of the MCE default output
stripe size to the IFM default stripe size in each spatial dimension. -/
def claimInnerRatioOtherIfmMce (mce : MceSData) (ifm : FmSData) : Nat :=
  mce.dfltStripeSize.ofmWidth / ifm.dfltStripeSize.width *
    (mce.dfltStripeSize.ofmHeight / ifm.dfltStripeSize.height)

/-- An MCE scheduler agent for a 16×16×16 output computed as a single
16×16×16 stripe with a 3×3 filter. -/
def mceAgentEx : MceSData :=
  { dfltStripeSize := ⟨16, 16, 16, 16⟩
    edgeStripeSize := ⟨16, 16, 16, 16⟩
    numStripes := ⟨1, 1, 1, 1⟩
    stripeIdStrides := mcesSetStripeIdStrides ⟨1, 1, 1, 1⟩
    filterShape := ⟨3, 3⟩ }

/-- The IFM streamer feeding `mceAgentEx`: a 16×16×16 input tensor streamed as
8×8×16 stripes, hence 2×2×1 stripes. -/
def ifmAgentEx : FmSData :=
  { dfltStripeSize := ⟨8, 8, 16⟩
    edgeStripeSize := ⟨8, 8, 16⟩
    numStripes := ⟨2, 2, 1⟩
    stripeIdStrides := fmsSetStripeIdStrides ⟨2, 2, 1⟩ }

/-- **C1**: at the failing input (`ifmAgentEx` feeding `mceAgentEx`) the compiler
emits the outer ratios, inner self ratio and boundary flag exactly as the claim
states, but computes `inner_ratio.other = 0` by dividing the stripe **count**
`numStripes.ofmWidth = 1` by the IFM stripe **size** `8`, while the claim's
`w_ratio · h_ratio = (16/8) · (16/8) = 4`. -/
theorem claim_C1_ifm_mce_dependency_evaluation :
    (FillConsumerAgentDependencyMceIfm mceAgentEx ifmAgentEx).outerRatio.other = 2 * 2 * 1 ∧
    (FillConsumerAgentDependencyMceIfm mceAgentEx ifmAgentEx).outerRatio.self = 1 * 1 * 1 ∧
    (FillConsumerAgentDependencyMceIfm mceAgentEx ifmAgentEx).innerRatio.self = 1 ∧
    (FillConsumerAgentDependencyMceIfm mceAgentEx ifmAgentEx).boundary = 1 ∧
    (FillConsumerAgentDependencyMceIfm mceAgentEx ifmAgentEx).innerRatio.other = 0 ∧
    claimInnerRatioOtherIfmMce mceAgentEx ifmAgentEx = 4 := by
  decide

/-! ## Stripe configuration (StripeHelper.cpp / StripeHelper.hpp) -/

/-- `ethosn::command_stream::BlockConfig`: an MCE block `(width, height)`,
constructed in the source as `BlockConfig{ w, h }`. -/
structure BlockConfig where
  m_BlockWidth : Nat
  m_BlockHeight : Nat
deriving DecidableEq

/-- The split flags of `StripeConfig` (the flags the source reads and writes). -/
structure StripeSplits where
  mceAndPleOutputHeight : Bool
  mceOutputHeightOnly : Bool
  widthOnly : Bool
  widthHeight : Bool
  widthHeightOutputDepth : Bool
  widthHeightOutputDepthInputDepth : Bool
  outputDepthInputDepth : Bool
  mceOutputDepthOnly : Bool
  mceAndPleOutputDepth : Bool
  inputDepthOnly : Bool
  none : Bool
deriving DecidableEq

/-- An inclusive `{min, max}` range (block/depth multipliers of `StripeConfig`). -/
structure MinMax where
  min : Nat
  max : Nat
deriving DecidableEq

/-- `StripeConfig` (the stripe-search configuration).  Its definition lives in
`StripeHelper.hpp`, which is not under `src/`; the fields are those the source
files read and write. -/
structure StripeConfig where
  splits : StripeSplits
  blockConfigs : List BlockConfig
  blockWidthMultiplier : MinMax
  blockHeightMultiplier : MinMax
  ifmDepthMultiplier : MinMax
  ofmDepthMultiplier : MinMax
deriving DecidableEq

/-- All splits disabled (`StripeConfig::DisableAllSplits`). -/
def disabledSplits : StripeSplits :=
  ⟨false, false, false, false, false, false, false, false, false, false, false⟩

/-- Modelled from the spec: a defaultly constructed `StripeConfig` "has
everything enabled" (comment at the top of `GetDefaultStripeConfig`); the
block-config universe is `{8×8, 8×16, 16×8, 16×16, 8×32, 32×8}` (§4.4) and the
multiplier ranges default to the full unsigned range.  The constructor is in
`StripeHelper.hpp`, which is not under `src/`. -/
def defaultStripeConfig : StripeConfig :=
  { splits := ⟨true, true, true, true, true, true, true, true, true, true, true⟩
    blockConfigs := [⟨8, 8⟩, ⟨8, 16⟩, ⟨16, 8⟩, ⟨16, 16⟩, ⟨8, 32⟩, ⟨32, 8⟩]
    blockWidthMultiplier := ⟨1, 4294967295⟩
    blockHeightMultiplier := ⟨1, 4294967295⟩
    ifmDepthMultiplier := ⟨1, 4294967295⟩
    ofmDepthMultiplier := ⟨1, 4294967295⟩ }

/-- The compilation-option flags read by `GetDefaultStripeConfig`. -/
structure CompilationOptions where
  m_Strategy0 : Bool
  m_Strategy1 : Bool
  m_Strategy3 : Bool
  m_Strategy4 : Bool
  m_Strategy6 : Bool
  m_Strategy7 : Bool
  m_BlockConfig8x8 : Bool
  m_BlockConfig8x16 : Bool
  m_BlockConfig16x8 : Bool
  m_BlockConfig16x16 : Bool
  m_BlockConfig32x8 : Bool
  m_BlockConfig8x32 : Bool
deriving DecidableEq

/-- `std::remove`/`erase` of one block config from the list (`removeBlockConfig`
lambda in `GetDefaultStripeConfig`): removes every equal element. -/
def removeBlockConfig (cfgs : List BlockConfig) (b : BlockConfig) : List BlockConfig :=
  cfgs.filter (fun x => x ≠ b)

/-- `GetDefaultStripeConfig` (StripeHelper.cpp lines 22-94): legacy strategy
filtering followed by block-config filtering from the compilation options.
The debug-config-file section (lines 96-332) reads the environment and a file
and is outside this model; it is a no-op when the environment variable is
unset. -/
def GetDefaultStripeConfig (opts : CompilationOptions) : StripeConfig :=
  let result := defaultStripeConfig
  let result :=
    if !opts.m_Strategy0 || !opts.m_Strategy1 || !opts.m_Strategy3 || !opts.m_Strategy4 ||
        !opts.m_Strategy6 || !opts.m_Strategy7 then
      let r := { result with splits := disabledSplits }
      let r := if opts.m_Strategy0 then
          { r with splits := { r.splits with mceAndPleOutputHeight := true } } else r
      let r := if opts.m_Strategy1 then
          { r with splits := { r.splits with mceAndPleOutputDepth := true,
                                             outputDepthInputDepth := true } } else r
      let r := if opts.m_Strategy3 then
          { r with splits := { r.splits with none := true } } else r
      let r := if opts.m_Strategy4 then
          { r with splits := { r.splits with widthOnly := true } } else r
      let r := if opts.m_Strategy6 then
          { r with splits := { r.splits with widthHeight := true,
                                             widthHeightOutputDepth := true } } else r
      let r := if opts.m_Strategy7 then
          { r with splits := { r.splits with widthHeightOutputDepthInputDepth := true } } else r
      r
    else result
  let cfgs := result.blockConfigs
  let cfgs := if !opts.m_BlockConfig8x8 then removeBlockConfig cfgs ⟨8, 8⟩ else cfgs
  let cfgs := if !opts.m_BlockConfig8x16 then removeBlockConfig cfgs ⟨8, 16⟩ else cfgs
  let cfgs := if !opts.m_BlockConfig16x8 then removeBlockConfig cfgs ⟨16, 8⟩ else cfgs
  let cfgs := if !opts.m_BlockConfig16x16 then removeBlockConfig cfgs ⟨16, 16⟩ else cfgs
  let cfgs := if !opts.m_BlockConfig32x8 then removeBlockConfig cfgs ⟨32, 8⟩ else cfgs
  let cfgs := if !opts.m_BlockConfig8x32 then removeBlockConfig cfgs ⟨8, 832⟩ else cfgs
  { result with blockConfigs := cfgs }

/-- Compilation options with every flag enabled except the 8×32 block config. -/
def opts8x32Disabled : CompilationOptions :=
  ⟨true, true, true, true, true, true, true, true, true, true, true, false⟩

/-- Compilation options with every flag enabled except the 16×16 block config. -/
def opts16x16Disabled : CompilationOptions :=
  ⟨true, true, true, true, true, true, true, true, true, false, true, true⟩

/-- **C8**: disabling the 16×16 block config removes `(16, 16)` as the claim
states, but disabling the 8×32 block config leaves `(8, 32)` in the returned
`blockConfigs`: the source removes `BlockConfig{ 8, 832 }` — `832` where `32`
was intended — which matches nothing in the list. -/
theorem claim_C8_block_config_evaluation :
    BlockConfig.mk 8 32 ∈ (GetDefaultStripeConfig opts8x32Disabled).blockConfigs ∧
    BlockConfig.mk 16 16 ∉ (GetDefaultStripeConfig opts16x16Disabled).blockConfigs := by
  decide

/-! ## Stripe candidate filtering (`StripeGenerator::GenerateStripes`, StripeHelper.cpp) -/

/-- `NumStripes`: an inclusive range of stripe counts. -/
structure NumStripes where
  m_Min : Nat
  m_Max : Nat
deriving DecidableEq

/-- Result of `utils::GetBoundaryRequirements`. -/
structure NeedBoundary where
  m_Before : Bool
  m_After : Bool
deriving DecidableEq

/-- `command_stream::cascading::PackedBoundaryThickness`. -/
structure PackedBoundaryThickness where
  left : Nat
  top : Nat
  right : Nat
  bottom : Nat
deriving DecidableEq

/-- `MceStripesInfo` (StripeHelper.hpp). -/
structure MceStripesInfo where
  m_Input : TensorShape
  m_Output : TensorShape
  m_Weight : TensorShape
  m_BlockConfig : BlockConfig
deriving DecidableEq

/-- `PleStripesInfo` (StripeHelper.hpp). -/
structure PleStripesInfo where
  m_Input : TensorShape
  m_Output : TensorShape
  m_BlockConfig : BlockConfig
deriving DecidableEq

/-- `MemoryStripeInfo` (StripeHelper.hpp): a stripe-count range and a shape. -/
structure MemoryStripeInfo where
  m_Range : NumStripes
  m_Shape : TensorShape
deriving DecidableEq

/-- `InputMemoryStripeInfo`: memory stripe info plus packed boundary and reloads. -/
structure InputMemoryStripeInfo where
  m_Info : MemoryStripeInfo
  m_PackedBoundaryThickness : PackedBoundaryThickness
  m_NumLoads : Nat
deriving DecidableEq

/-- `WeightMemoryStripeInfo`: memory stripe info plus reloads. -/
structure WeightMemoryStripeInfo where
  m_Info : MemoryStripeInfo
  m_NumLoads : Nat
deriving DecidableEq

/-- `MemoryStripesInfo` (StripeHelper.hpp). -/
structure MemoryStripesInfo where
  m_Input : InputMemoryStripeInfo
  m_Output : MemoryStripeInfo
  m_Weight : WeightMemoryStripeInfo
  m_PleInput : MemoryStripeInfo
deriving DecidableEq

/-- `MceAndPleInfo` (StripeHelper.hpp). -/
structure MceAndPleInfo where
  m_MceCompute : MceStripesInfo
  m_PleCompute : PleStripesInfo
  m_Memory : MemoryStripesInfo
deriving DecidableEq

/-- `MceOnlyInfo` (StripeHelper.hpp). -/
structure MceOnlyInfo where
  m_MceCompute : MceStripesInfo
  m_Memory : MemoryStripesInfo
deriving DecidableEq

/-- `PleOnlyInfo` (StripeHelper.hpp). -/
structure PleOnlyInfo where
  m_PleCompute : PleStripesInfo
  m_Memory : MemoryStripesInfo
deriving DecidableEq

/-- `DmaOnlyInfo` (StripeHelper.hpp). -/
structure DmaOnlyInfo where
  m_Input : MemoryStripeInfo
  m_Output : MemoryStripeInfo
deriving DecidableEq

/-- What one successful `AddStripeInfos` call inserts into `outStripeInfos`:
one info of each of the four kinds. -/
structure StripeInfosAdded where
  mceAndPle : MceAndPleInfo
  mceOnly : MceOnlyInfo
  pleOnly : PleOnlyInfo
  dmaOnly : DmaOnlyInfo
deriving DecidableEq

/-- The values of the enclosing `StripeGenerator` and capabilities captured by
the `AddStripeInfos` lambda in `GenerateStripes` (StripeHelper.cpp lines
471-651). -/
structure StripeGenCtx where
  kernelHeight : Nat
  kernelWidth : Nat
  padTop : Nat
  padLeft : Nat
  isDepthwise : Bool
  mceInputTensorShape : TensorShape
  mceOutputShape : TensorShape
  blockConfig : BlockConfig
  maxMceStripesPerPleStripe : Nat
  maxIfmAndWgtStripesPerPleStripe : Nat
deriving DecidableEq

/-- The thirteen arguments of one `AddStripeInfos` call. -/
structure AddStripeInfosArgs where
  mceInputStripe : TensorShape
  mceOutputStripe : TensorShape
  pleInputStripe : TensorShape
  pleOutputStripe : TensorShape
  inputRange : NumStripes
  outputRange : NumStripes
  weightRange : NumStripes
  pleInputRange : NumStripes
  memoryInputStripe : TensorShape
  memoryOutputStripe : TensorShape
  memoryPleInputStripe : TensorShape
  inputShape : TensorShape
  outputShape : TensorShape
deriving DecidableEq

/-- The clamp of the input stripe-count maximum to the number of memory stripes
that fit in the input tensor (first statement of `AddStripeInfos`). -/
def clampedInputMax (a : AddStripeInfosArgs) : Nat :=
  min a.inputRange.m_Max
    (DivRoundUp a.inputShape.h a.memoryInputStripe.h *
      DivRoundUp a.inputShape.w a.memoryInputStripe.w *
      DivRoundUp a.inputShape.c a.memoryInputStripe.c)

/-- The clamp of the output stripe-count maximum, likewise. -/
def clampedOutputMax (a : AddStripeInfosArgs) : Nat :=
  min a.outputRange.m_Max
    (DivRoundUp a.outputShape.h a.memoryOutputStripe.h *
      DivRoundUp a.outputShape.w a.memoryOutputStripe.w *
      DivRoundUp a.outputShape.c a.memoryOutputStripe.c)

/-- The firmware bound checked second: the number of MCE stripes per PLE stripe
(StripeHelper.cpp lines 532-538). -/
def numMceStripesPerPle (a : AddStripeInfosArgs) : Nat :=
  DivRoundUp a.pleInputStripe.c a.mceOutputStripe.c *
    DivRoundUp a.inputShape.c a.mceInputStripe.c

/-- The `AddStripeInfos` lambda of `StripeGenerator::GenerateStripes`
(StripeHelper.cpp lines 501-651).  Returns `none` when the candidate is
discarded by one of the three early returns, otherwise the four stripe infos
inserted into the output set.  `utils::GetBoundaryRequirements` lives in
`Utils.hpp`, which is not under `src/`, so it is taken as a parameter `gbr`
with the argument order of the call sites
`(pad_before, size, stripe_in, stripe_out, kernel)`. -/
def AddStripeInfos (gbr : Nat → Nat → Nat → Nat → Nat → NeedBoundary)
    (ctx : StripeGenCtx) (a : AddStripeInfosArgs) : Option StripeInfosAdded :=
  let inputCopy : NumStripes :=
    ⟨min a.inputRange.m_Min (clampedInputMax a), clampedInputMax a⟩
  let outputCopy : NumStripes :=
    ⟨min a.outputRange.m_Min (clampedOutputMax a), clampedOutputMax a⟩
  let multipleStripes := inputCopy.m_Max > 1 ∧ outputCopy.m_Max > 1
  let stripesLargerThanTensor :=
    GetNumElements a.memoryInputStripe > GetNumElements a.inputShape ∧
      GetNumElements a.memoryOutputStripe > GetNumElements a.outputShape
  if multipleStripes ∧ stripesLargerThanTensor then none
  else if numMceStripesPerPle a > ctx.maxMceStripesPerPleStripe then none
  else
    let numIfmStripesPerMce :=
      DivRoundUp a.mceInputStripe.w a.memoryInputStripe.w *
        DivRoundUp a.mceInputStripe.h a.memoryInputStripe.h *
        DivRoundUp a.mceInputStripe.c a.memoryInputStripe.c
    let numWgtStripesPerMce := 1
    if (numIfmStripesPerMce + numWgtStripesPerMce) * numMceStripesPerPle a >
        ctx.maxIfmAndWgtStripesPerPleStripe then none
    else
      let mceWeightStripe : TensorShape :=
        ⟨ctx.kernelHeight, ctx.kernelWidth, a.mceInputStripe.c,
          if ctx.isDepthwise then 1 else a.mceOutputStripe.c⟩
      let memoryWeightStripe := mceWeightStripe
      let weightCopy : NumStripes :=
        ⟨a.weightRange.m_Min,
          if ctx.isDepthwise then
            (if memoryWeightStripe.w ≥ ctx.mceInputTensorShape.c then 1 else a.weightRange.m_Max)
          else
            (if memoryWeightStripe.c ≥ ctx.mceOutputShape.c then 1 else a.weightRange.m_Max)⟩
      let needBoundaryY :=
        gbr ctx.padTop a.inputShape.h a.mceInputStripe.h a.mceOutputStripe.h ctx.kernelHeight
      let needBoundaryX :=
        gbr ctx.padLeft a.inputShape.w a.mceInputStripe.w a.mceOutputStripe.w ctx.kernelWidth
      let packBoundaryVertical := a.mceInputStripe.w < a.inputShape.w
      let packBoundaryHorizontal := a.mceInputStripe.c < a.inputShape.c
      let packedBoundaryThickness : PackedBoundaryThickness :=
        { left := if packBoundaryHorizontal ∧ needBoundaryX.m_Before then 8 else 0
          top := if packBoundaryVertical ∧ needBoundaryY.m_Before then 8 else 0
          right := if packBoundaryHorizontal ∧ needBoundaryX.m_After then 8 else 0
          bottom := if packBoundaryVertical ∧ needBoundaryY.m_After then 8 else 0 }
      let numIfmLoads :=
        if ¬ctx.isDepthwise ∧
            (a.mceInputStripe.w < a.inputShape.w ∨ a.mceInputStripe.h < a.inputShape.h ∨
              a.mceInputStripe.c < a.inputShape.c) then
          DivRoundUp ctx.mceOutputShape.c a.mceOutputStripe.c
        else 1
      let numWeightLoads :=
        if ¬ctx.isDepthwise ∧ a.mceInputStripe.c < a.inputShape.c then
          DivRoundUp ctx.mceOutputShape.w a.mceOutputStripe.w *
            DivRoundUp ctx.mceOutputShape.h a.mceOutputStripe.h
        else 1
      some
        { mceAndPle :=
            { m_MceCompute := ⟨a.mceInputStripe, a.mceOutputStripe, mceWeightStripe,
                ctx.blockConfig⟩
              m_PleCompute := ⟨a.pleInputStripe, a.pleOutputStripe, ctx.blockConfig⟩
              m_Memory :=
                { m_Input := ⟨⟨inputCopy, a.memoryInputStripe⟩, packedBoundaryThickness,
                    numIfmLoads⟩
                  m_Output := ⟨outputCopy, a.memoryOutputStripe⟩
                  m_Weight := ⟨⟨weightCopy, memoryWeightStripe⟩, numWeightLoads⟩
                  m_PleInput := ⟨a.pleInputRange, a.memoryPleInputStripe⟩ } }
          mceOnly :=
            { m_MceCompute := ⟨a.mceInputStripe, a.mceOutputStripe, mceWeightStripe,
                ctx.blockConfig⟩
              m_Memory :=
                { m_Input := ⟨⟨inputCopy, a.memoryInputStripe⟩, packedBoundaryThickness,
                    numIfmLoads⟩
                  m_Output := ⟨⟨0, 0⟩, ⟨0, 0, 0, 0⟩⟩
                  m_Weight := ⟨⟨weightCopy, memoryWeightStripe⟩, numWeightLoads⟩
                  m_PleInput := ⟨a.pleInputRange, a.memoryPleInputStripe⟩ } }
          pleOnly :=
            { m_PleCompute := ⟨a.pleInputStripe, a.pleOutputStripe, ctx.blockConfig⟩
              m_Memory :=
                { m_Input := ⟨⟨⟨0, 0⟩, ⟨0, 0, 0, 0⟩⟩, ⟨0, 0, 0, 0⟩, 0⟩
                  m_Output := ⟨outputCopy, a.memoryOutputStripe⟩
                  m_Weight := ⟨⟨⟨0, 0⟩, ⟨0, 0, 0, 0⟩⟩, 0⟩
                  m_PleInput := ⟨a.pleInputRange, a.memoryPleInputStripe⟩ } }
          dmaOnly :=
            { m_Input := ⟨inputCopy, a.memoryInputStripe⟩
              m_Output := ⟨outputCopy, a.memoryOutputStripe⟩ } }

/-- A boundary-requirements instantiation used for concrete evaluations. -/
def gbrNone : Nat → Nat → Nat → Nat → Nat → NeedBoundary := fun _ _ _ _ _ => ⟨false, false⟩

/-- A `GenerateStripes` context for a 1×1 convolution on an 8×8×16 tensor with
generous firmware limits. -/
def c3CtxEx : StripeGenCtx :=
  ⟨1, 1, 0, 0, false, ⟨1, 8, 8, 16⟩, ⟨1, 8, 8, 16⟩, ⟨16, 16⟩, 100, 100⟩

/-- An `AddStripeInfos` call whose stripe-count ranges allow several stripes and
whose memory stripes equal the tensors in every dimension. -/
def c3ArgsEx : AddStripeInfosArgs :=
  { mceInputStripe := ⟨1, 8, 8, 16⟩
    mceOutputStripe := ⟨1, 8, 8, 16⟩
    pleInputStripe := ⟨1, 8, 8, 16⟩
    pleOutputStripe := ⟨1, 8, 8, 16⟩
    inputRange := ⟨1, 2⟩
    outputRange := ⟨1, 3⟩
    weightRange := ⟨1, 2⟩
    pleInputRange := ⟨0, 0⟩
    memoryInputStripe := ⟨1, 8, 8, 16⟩
    memoryOutputStripe := ⟨1, 8, 8, 16⟩
    memoryPleInputStripe := ⟨1, 8, 8, 16⟩
    inputShape := ⟨1, 8, 8, 16⟩
    outputShape := ⟨1, 8, 8, 16⟩ }

/-- **C3, counterexample**: at `c3ArgsEx` the input and output ranges allow more
than one stripe and the memory stripes are ≥ the tensors in every dimension,
yet the candidate is *not* discarded: all four stripe infos are emitted.  The
code discards only when the memory stripes have strictly more **elements** than
the tensors and more than one stripe still fits after clamping. -/
theorem claim_C3_counterexample :
    c3ArgsEx.inputRange.m_Max > 1 ∧ c3ArgsEx.outputRange.m_Max > 1 ∧
    c3ArgsEx.inputShape.n ≤ c3ArgsEx.memoryInputStripe.n ∧
    c3ArgsEx.inputShape.h ≤ c3ArgsEx.memoryInputStripe.h ∧
    c3ArgsEx.inputShape.w ≤ c3ArgsEx.memoryInputStripe.w ∧
    c3ArgsEx.inputShape.c ≤ c3ArgsEx.memoryInputStripe.c ∧
    c3ArgsEx.outputShape.n ≤ c3ArgsEx.memoryOutputStripe.n ∧
    c3ArgsEx.outputShape.h ≤ c3ArgsEx.memoryOutputStripe.h ∧
    c3ArgsEx.outputShape.w ≤ c3ArgsEx.memoryOutputStripe.w ∧
    c3ArgsEx.outputShape.c ≤ c3ArgsEx.memoryOutputStripe.c ∧
    (AddStripeInfos gbrNone c3CtxEx c3ArgsEx).isSome = true := by
  decide

/-- **C3, amended**: a stripe candidate is discarded when, after clamping the
stripe-count maxima to the number of stripes that fit in the tensor, both input
and output still allow more than one stripe **and** the memory input and output
stripes each have strictly more elements than the corresponding tensor. -/
theorem claim_C3_discard_when_strictly_larger
    (gbr : Nat → Nat → Nat → Nat → Nat → NeedBoundary)
    (ctx : StripeGenCtx) (a : AddStripeInfosArgs)
    (hin : clampedInputMax a > 1) (hout : clampedOutputMax a > 1)
    (hinLarger : GetNumElements a.memoryInputStripe > GetNumElements a.inputShape)
    (houtLarger : GetNumElements a.memoryOutputStripe > GetNumElements a.outputShape) :
    AddStripeInfos gbr ctx a = none := by
  simp [AddStripeInfos, hin, hout, hinLarger, houtLarger]

/-- A `GenerateStripes` context for the witness of the amended C3 theorem. -/
def c3WitnessCtx : StripeGenCtx :=
  ⟨1, 1, 0, 0, false, ⟨1, 16, 8, 16⟩, ⟨1, 16, 8, 16⟩, ⟨16, 16⟩, 100, 100⟩

/-- An `AddStripeInfos` call whose memory stripes have strictly more elements
than the 16×8×16 tensors while still splitting the height dimension. -/
def c3WitnessArgs : AddStripeInfosArgs :=
  { mceInputStripe := ⟨1, 8, 8, 16⟩
    mceOutputStripe := ⟨1, 8, 8, 16⟩
    pleInputStripe := ⟨1, 8, 8, 16⟩
    pleOutputStripe := ⟨1, 8, 8, 16⟩
    inputRange := ⟨1, 4⟩
    outputRange := ⟨1, 4⟩
    weightRange := ⟨1, 2⟩
    pleInputRange := ⟨0, 0⟩
    memoryInputStripe := ⟨1, 8, 8, 512⟩
    memoryOutputStripe := ⟨1, 8, 8, 512⟩
    memoryPleInputStripe := ⟨1, 8, 8, 16⟩
    inputShape := ⟨1, 16, 8, 16⟩
    outputShape := ⟨1, 16, 8, 16⟩ }

/-- Witness for the amended C3 theorem: the oversized candidate is discarded. -/
theorem claim_C3_discard_witness :
    AddStripeInfos gbrNone c3WitnessCtx c3WitnessArgs = none :=
  claim_C3_discard_when_strictly_larger gbrNone c3WitnessCtx c3WitnessArgs
    (by decide) (by decide) (by decide) (by decide)

/-- **C6**: every stripe candidate that is emitted (not discarded) satisfies
`ceil(ple_in_C / mce_out_C) · ceil(tensor_in_C / mce_in_C) ≤
caps.max_mce_stripes_per_ple_stripe`; a violating candidate is rejected before
any stripe info is emitted. -/
theorem claim_C6_max_mce_stripes_bound
    (gbr : Nat → Nat → Nat → Nat → Nat → NeedBoundary)
    (ctx : StripeGenCtx) (a : AddStripeInfosArgs) (infos : StripeInfosAdded)
    (h : AddStripeInfos gbr ctx a = some infos) :
    numMceStripesPerPle a ≤ ctx.maxMceStripesPerPleStripe := by
  simp only [AddStripeInfos] at h
  split at h
  · exact absurd h (by simp)
  · split at h
    · exact absurd h (by simp)
    · rename_i hle
      omega

/-- The context of the C6 witness (generous firmware limits). -/
def c6CtxEx : StripeGenCtx :=
  ⟨1, 1, 0, 0, false, ⟨1, 8, 8, 16⟩, ⟨1, 8, 8, 16⟩, ⟨16, 16⟩, 100, 100⟩

/-- The arguments of the C6 witness: an emitted (not discarded) candidate. -/
def c6ArgsEx : AddStripeInfosArgs :=
  { mceInputStripe := ⟨1, 8, 8, 16⟩
    mceOutputStripe := ⟨1, 8, 8, 16⟩
    pleInputStripe := ⟨1, 8, 8, 16⟩
    pleOutputStripe := ⟨1, 8, 8, 16⟩
    inputRange := ⟨1, 2⟩
    outputRange := ⟨1, 3⟩
    weightRange := ⟨1, 2⟩
    pleInputRange := ⟨0, 0⟩
    memoryInputStripe := ⟨1, 8, 8, 16⟩
    memoryOutputStripe := ⟨1, 8, 8, 16⟩
    memoryPleInputStripe := ⟨1, 8, 8, 16⟩
    inputShape := ⟨1, 8, 8, 16⟩
    outputShape := ⟨1, 8, 8, 16⟩ }

/-- Witness for C6 at a concrete emitted candidate. -/
theorem claim_C6_bound_witness :
    numMceStripesPerPle c6ArgsEx ≤ c6CtxEx.maxMceStripesPerPleStripe := by
  have hs : (AddStripeInfos gbrNone c6CtxEx c6ArgsEx).isSome = true := by decide
  exact claim_C6_max_mce_stripes_bound gbrNone c6CtxEx c6ArgsEx _ (Option.some_get hs).symm

/-! ## Compile dispatch (`CascadingCompiler::Compile`, CascadingCompiler.cpp lines 33-88) -/

/-- `Location` of a buffer. -/
inductive Location where
  | Dram
  | Sram
  | PleInputSram
  | VirtualSram
deriving DecidableEq

/-- `CascadingBufferFormat` restricted to the distinctions `ProcessDmaOp` makes. -/
inductive CascadingBufferFormat where
  | WEIGHT
  | NHWCB
  | NHWC
  | NCHW
  | FCAF_DEEP
  | FCAF_WIDE
deriving DecidableEq

/-- The op kinds `Compile` dispatches on, with the buffer attributes read by
`ProcessDmaOp` and the `m_LoadKernel` flag read by `ProcessMceOp`.  `otherOp`
stands for any op that is none of the four supported kinds. -/
inductive CompilerOp where
  | dmaOp (inputLocation outputLocation : Location) (inputFormat : CascadingBufferFormat)
  | mceOp (pleLoadKernel : Bool)
  | pleOp
  | concatOp
  | otherOp
deriving DecidableEq

/-- The kind of agent pushed onto the command stream. -/
inductive AgentKind where
  | ifmStreamer
  | wgtStreamer
  | mceScheduler
  | pleLoader
  | pleScheduler
  | ofmStreamer
deriving DecidableEq

/-- The agents one `Process*Op` call pushes, or `none` when the op is
unsupported and `throw NotSupportedException` fires (`Compile` lines 41-63).
`ProcessDmaOp` dispatches on buffer locations and format (lines 95-124; the
`assert(false)` fall-through pushes nothing); `ProcessMceOp` pushes a PLE
loader first when the consuming PLE op loads its kernel (lines 126-187);
`ProcessConcatOp` is a no-op (lines 194-197). -/
def processOp : CompilerOp → Option (List AgentKind)
  | .dmaOp inLoc outLoc fmt =>
      if inLoc = .Dram ∧ outLoc = .Sram then
        if fmt ≠ .WEIGHT then some [.ifmStreamer] else some [.wgtStreamer]
      else if inLoc = .Sram ∧ outLoc = .Dram then some [.ofmStreamer]
      else some []
  | .mceOp loadKernel =>
      if loadKernel then some [.pleLoader, .mceScheduler] else some [.mceScheduler]
  | .pleOp => some [.pleScheduler]
  | .concatOp => some []
  | .otherOp => none

/-- The agent-emission skeleton of `CascadingCompiler::Compile`: process the
ops in execution order; the `NotSupportedException` raised on an unsupported op
is caught at the top and turns the whole compilation into a null compiled
network (`none`).  Only a fully processed op list yields a command stream. -/
def Compile (ops : List CompilerOp) : Option (List AgentKind) :=
  match ops with
  | [] => some []
  | op :: rest =>
      match processOp op with
      | none => none
      | some agents =>
          match Compile rest with
          | none => none
          | some more => some (agents ++ more)

/-- **C4**: an op graph containing any op the cascading compiler does not
support compiles to no command stream at all — `Compile` returns the null
compiled network, never a partially built stream. -/
theorem claim_C4_unsupported_op_yields_no_stream (ops : List CompilerOp)
    (h : CompilerOp.otherOp ∈ ops) : Compile ops = none := by
  induction ops with
  | nil => cases h
  | cons op rest ih =>
      rcases List.mem_cons.mp h with rfl | hmem
      · rfl
      · cases hop : processOp op
        · simp [Compile, hop]
        · simp [Compile, hop, ih hmem]

/-- Witness for C4: a pipeline with an unsupported op after several supported
ones yields no command stream. -/
theorem claim_C4_unsupported_witness :
    Compile [.dmaOp .Dram .Sram .NHWCB, .dmaOp .Dram .Sram .WEIGHT, .mceOp true,
      .pleOp, .otherOp, .dmaOp .Sram .Dram .NHWCB] = none :=
  claim_C4_unsupported_op_yields_no_stream _ (by decide)

/-! ## Intermediate DRAM buffer lifetimes
(`CascadingCompiler::AddLifetimeInfoForIntermediateDramBuffers`,
CascadingCompiler.cpp lines 734-776) -/

/-- `BufferType` of a DRAM buffer. -/
inductive BufferType where
  | Input
  | Output
  | Intermediate
  | ConstantDma
  | ConstantControl
deriving DecidableEq

/-- A buffer of the merged op graph as seen by the lifetime pass, with its
producer and consumers already resolved to agent ids through
`m_OpToAgentIdMapping` and its DRAM buffer id through
`m_IntermdiateDramBufToBufIdMapping`. -/
structure LifetimeBuffer where
  bufferId : Nat
  location : Location
  bufferType : BufferType
  producerAgentId : Nat
  consumerAgentIds : List Nat
deriving DecidableEq

/-- The `(buffer id, lifetime start, lifetime end)` triples passed to
`BufferManager::MarkBufferUsedAtTime`: for every DRAM buffer of type
`Intermediate`, start at the producer agent id and end one past the running
maximum (initialised to 0) of the consumer agent ids. -/
def AddLifetimeInfoForIntermediateDramBuffers (buffers : List LifetimeBuffer) :
    List (Nat × Nat × Nat) :=
  buffers.filterMap fun buffer =>
    if buffer.location = .Dram ∧ buffer.bufferType = .Intermediate then
      some (buffer.bufferId, buffer.producerAgentId,
        buffer.consumerAgentIds.foldl max 0 + 1)
    else none

theorem foldl_max_of_bounded (t : List Nat) :
    ∀ s, (∀ x ∈ t, x ≤ s) → t.foldl max s = s := by
  induction t with
  | nil => intro s _; rfl
  | cons c t ih =>
      intro s h
      have hc : c ≤ s := h c (by simp)
      have : max s c = s := by omega
      simp only [List.foldl, this]
      exact ih s fun x hx => h x (by simp [hx])

theorem foldl_max_of_mem (l : List Nat) (m : Nat) :
    m ∈ l → (∀ x ∈ l, x ≤ m) → ∀ a, a ≤ m → l.foldl max a = m := by
  induction l with
  | nil => intro hm; cases hm
  | cons c t ih =>
      intro hm hb a ha
      rcases List.mem_cons.mp hm with rfl | hmt
      · have : max a m = m := by omega
        simp only [List.foldl, this]
        exact foldl_max_of_bounded t m fun x hx => hb x (by simp [hx])
      · have hc : c ≤ m := hb c (by simp)
        have : max a c ≤ m := by omega
        simp only [List.foldl]
        exact ih hmt (fun x hx => hb x (by simp [hx])) (max a c) this

/-- **C7**: for every intermediate DRAM buffer with at least one consumer, the
lifetime interval published to the buffer manager is exactly
`[producer_agent_id, max(consumer_agent_id) + 1)`. -/
theorem claim_C7_intermediate_dram_lifetimes (buffers : List LifetimeBuffer)
    (b : LifetimeBuffer) (hmem : b ∈ buffers)
    (hloc : b.location = .Dram) (htype : b.bufferType = .Intermediate)
    (m : Nat) (hmax : m ∈ b.consumerAgentIds)
    (hbound : ∀ x ∈ b.consumerAgentIds, x ≤ m) :
    (b.bufferId, b.producerAgentId, m + 1) ∈
      AddLifetimeInfoForIntermediateDramBuffers buffers := by
  unfold AddLifetimeInfoForIntermediateDramBuffers
  refine List.mem_filterMap.mpr ⟨b, hmem, ?_⟩
  rw [if_pos ⟨hloc, htype⟩, foldl_max_of_mem _ m hmax hbound 0 (Nat.zero_le m)]

/-- Witness for C7 at a concrete three-buffer graph. -/
theorem claim_C7_lifetimes_witness :
    (7, 2, 6 + 1) ∈ AddLifetimeInfoForIntermediateDramBuffers
      [⟨3, .Sram, .Input, 0, [1]⟩,
       ⟨7, .Dram, .Intermediate, 2, [4, 6, 3]⟩,
       ⟨9, .Dram, .Output, 5, [6]⟩] :=
  claim_C7_intermediate_dram_lifetimes _ ⟨7, .Dram, .Intermediate, 2, [4, 6, 3]⟩
    (by decide) (by decide) (by decide) 6 (by decide) (by decide)

/-! ## StandalonePlePart::GetPlans (StandalonePlePart.cpp lines 59-255) -/

/-- The standalone PLE kernels (`command_stream::PleOperation` members used by
`StandalonePlePart`). -/
inductive PleOperation where
  | ADDITION
  | ADDITION_RESCALE
  | AVGPOOL_3X3_1_1_UDMA
deriving DecidableEq

/-- `CascadeType`: the position of a part inside a section. -/
inductive CascadeType where
  | Beginning
  | Middle
  | End
  | Lonely
deriving DecidableEq

/-- The fields of the previous buffer read by `StandalonePlePart::GetPlans`. -/
structure PrevBuffer where
  location : Location
  stripeShape : TensorShape
deriving DecidableEq

/-- Modelled from the spec: `StripeConfig::DisableSplitWidth` lives in
`StripeHelper.hpp`, which is not under `src/`; it disables every split of the
§4.4 list that splits width. -/
def DisableSplitWidth (c : StripeConfig) : StripeConfig :=
  { c with splits :=
      { c.splits with
          widthOnly := false
          widthHeight := false
          widthHeightOutputDepth := false
          widthHeightOutputDepthInputDepth := false } }

/-- Modelled from the spec: `StripeConfig::DisableSplitHeight` (not under
`src/`); disables every split of the §4.4 list that splits height. -/
def DisableSplitHeight (c : StripeConfig) : StripeConfig :=
  { c with splits :=
      { c.splits with
          mceAndPleOutputHeight := false
          mceOutputHeightOnly := false
          widthHeight := false
          widthHeightOutputDepth := false
          widthHeightOutputDepthInputDepth := false } }

/-- Modelled from the spec: `StripeConfig::DisableSplitInputDepth` (not under
`src/`); disables every split of the §4.4 list that splits input depth. -/
def DisableSplitInputDepth (c : StripeConfig) : StripeConfig :=
  { c with splits :=
      { c.splits with
          widthHeightOutputDepthInputDepth := false
          outputDepthInputDepth := false
          inputDepthOnly := false } }

/-- Modelled from the spec: `StripeConfig::DisableSplitOutputDepth` (not under
`src/`); disables every split of the §4.4 list that splits output depth. -/
def DisableSplitOutputDepth (c : StripeConfig) : StripeConfig :=
  { c with splits :=
      { c.splits with
          widthHeightOutputDepth := false
          widthHeightOutputDepthInputDepth := false
          outputDepthInputDepth := false
          mceOutputDepthOnly := false
          mceAndPleOutputDepth := false } }

/-- The plans produced by the `addPlan` calls of `StandalonePlePart::GetPlans`
(lines 202-252); each plan is represented by the output stripe shape from which
`addPlan` deterministically builds its op graph.  `StripeShapeLoop::Inclusive`
lives in `StripeHelper.hpp`, which is not under `src/`, so the loop is taken as
a parameter with the argument order `(tensor dim, brick dim, mult min,
mult max)`. -/
def standalonePlePlansBody (loop : Nat → Nat → Nat → Nat → List Nat)
    (stripeConfig : StripeConfig) (outputTensorShape : TensorShape)
    (cascadeType : CascadeType) : List TensorShape :=
  (if stripeConfig.splits.none then
    [CreateStripe outputTensorShape ⟨0, 0, 0, 0⟩ brickGroupShape.c] else []) ++
  (if stripeConfig.splits.widthOnly then
    [CreateStripe outputTensorShape ⟨0, 0, brickGroupShape.w, 0⟩ brickGroupShape.c] else []) ++
  (if stripeConfig.splits.mceAndPleOutputHeight then
    [CreateStripe outputTensorShape ⟨0, brickGroupShape.h, 0, 0⟩ brickGroupShape.c] else []) ++
  (if cascadeType = .Lonely then
    (if stripeConfig.splits.outputDepthInputDepth then
      [CreateStripe outputTensorShape ⟨0, 0, 0, brickGroupShape.c⟩ brickGroupShape.c] else []) ++
    (if stripeConfig.splits.widthHeightOutputDepthInputDepth then
      (loop outputTensorShape.h brickGroupShape.h stripeConfig.blockHeightMultiplier.min
          stripeConfig.blockHeightMultiplier.max).flatMap fun stripeHeight =>
        (loop outputTensorShape.w brickGroupShape.w stripeConfig.blockWidthMultiplier.min
            stripeConfig.blockWidthMultiplier.max).flatMap fun stripeWidth =>
          (loop outputTensorShape.c brickGroupShape.c stripeConfig.ofmDepthMultiplier.min
              stripeConfig.ofmDepthMultiplier.max).map fun stripeDepth =>
            CreateStripe outputTensorShape ⟨0, stripeHeight, stripeWidth, stripeDepth⟩
              brickGroupShape.c
     else [])
   else [])

/-- `StandalonePlePart::GetPlans` (lines 59-255).  A null `prevBuffer` where the
code would dereference it fails the source `assert`; that case is modelled as
producing no plans. -/
def StandalonePleGetPlans (loop : Nat → Nat → Nat → Nat → List Nat)
    (kernelOperation : PleOperation) (stripeConfigIn : StripeConfig)
    (inputTensorShape0 outputTensorShape : TensorShape)
    (cascadeType : CascadeType) (prevBuffer : Option PrevBuffer) : List TensorShape :=
  let prevNotSram : Bool :=
    match prevBuffer with
    | none => true
    | some pb => pb.location != .Sram
  if (cascadeType == .Middle || cascadeType == .End) && prevNotSram then []
  else
    match kernelOperation with
    | .ADDITION | .ADDITION_RESCALE =>
        if cascadeType = .Lonely then
          standalonePlePlansBody loop stripeConfigIn outputTensorShape cascadeType
        else []
    | .AVGPOOL_3X3_1_1_UDMA =>
        let sc := DisableSplitHeight (DisableSplitWidth stripeConfigIn)
        let sc := if cascadeType ≠ .Lonely then
            DisableSplitOutputDepth (DisableSplitInputDepth sc) else sc
        let prevStripeSmaller : Bool :=
          match prevBuffer with
          | none => false
          | some pb => decide (pb.stripeShape.h < inputTensorShape0.h) ||
              decide (pb.stripeShape.w < inputTensorShape0.w) ||
              decide (pb.stripeShape.c < inputTensorShape0.c)
        if (cascadeType == .Middle || cascadeType == .End) && prevStripeSmaller then []
        else standalonePlePlansBody loop sc outputTensorShape cascadeType

/-- **C10**: a standalone PLE part whose kernel is `ADDITION` or
`ADDITION_RESCALE` produces no plans whenever the cascade type is not `Lonely`;
such two-input parts only ever appear as a `Lonely` section of size one. -/
theorem claim_C10_addition_only_lonely (loop : Nat → Nat → Nat → Nat → List Nat)
    (kop : PleOperation) (sc : StripeConfig) (inShape outShape : TensorShape)
    (ct : CascadeType) (pb : Option PrevBuffer)
    (hop : kop = .ADDITION ∨ kop = .ADDITION_RESCALE) (hct : ct ≠ .Lonely) :
    StandalonePleGetPlans loop kop sc inShape outShape ct pb = [] := by
  rcases hop with rfl | rfl <;>
    (unfold StandalonePleGetPlans; cases pb <;> (split <;> simp [hct]))

/-- Witness for C10: an `ADDITION` part queried as the `Beginning` of a section
yields no plans. -/
theorem claim_C10_addition_witness :
    StandalonePleGetPlans (fun _ _ _ _ => []) .ADDITION defaultStripeConfig
      ⟨1, 16, 16, 16⟩ ⟨1, 16, 16, 16⟩ .Beginning none = [] :=
  claim_C10_addition_only_lonely (fun _ _ _ _ => []) .ADDITION defaultStripeConfig
    ⟨1, 16, 16, 16⟩ ⟨1, 16, 16, 16⟩ .Beginning none (Or.inl rfl) (by decide)

/-! ## Command-stream codec (spec §4.6)

Modelled from the spec: the XML↔binary converter sources are not under `src/`
(only their tests are), so the codec is modelled from §4.6: a little-endian
binary layout `Header { magic, version } · Section { kind, payload_bytes,
payload }` with the `Cascade` payload `total_size, agents_offset, num_agents,
4 × (cmds_offset, num_cmds), agents, cmds`, and an XML form with `STREAM`,
`CASCADE`, `AGENTS` and the four command-queue elements with typed numeric
leaves.  Offsets are byte-relative and computed by the serialiser; the parser
walks the counts in order.  Consumers reject a mismatched major version. -/

/-- Little-endian encoding of a 16-bit value. -/
def enc16 (n : Nat) : List Nat := [n % 256, n / 256 % 256]

/-- Little-endian decoding of a 16-bit value. -/
def dec16 : List Nat → Option (Nat × List Nat)
  | b0 :: b1 :: rest => some (b0 + 256 * b1, rest)
  | _ => none

/-- Little-endian encoding of a 32-bit value. -/
def enc32 (n : Nat) : List Nat :=
  [n % 256, n / 256 % 256, n / 65536 % 256, n / 16777216 % 256]

/-- Little-endian decoding of a 32-bit value. -/
def dec32 : List Nat → Option (Nat × List Nat)
  | b0 :: b1 :: b2 :: b3 :: rest =>
      some (b0 + 256 * b1 + 65536 * b2 + 16777216 * b3, rest)
  | _ => none

/-- Decoding of a single byte (an agent or command tag). -/
def decU8 : List Nat → Option (Nat × List Nat)
  | b :: rest => some (b, rest)
  | [] => none

/-- Parsed agents of the §4.7 table, with the numeric payload fields modelled
as 16-bit values (the DRAM offset as 32-bit). -/
inductive AgentIR where
  | ifmStreamer (dramOffset bufferId tileBaseAddr tileNumSlots tileSlotSize
      numStripesH numStripesW numStripesC : Nat)
  | wgtStreamer (bufferId metadataBufferId tileBaseAddr tileNumSlots tileSlotSize
      edgeStripeOfmChannels : Nat)
  | mceScheduler (blockW blockH numStripesOfmH numStripesOfmW numStripesOfmC
      numStripesIfmC pleKernelId : Nat)
  | pleLoader (pleKernelId sramAddr : Nat)
  | pleScheduler (ofmZeroPoint pleKernelId pleKernelSramAddr
      numStripesH numStripesW numStripesC : Nat)
  | ofmStreamer (dramOffset bufferId tileBaseAddr tileNumSlots tileSlotSize
      numStripesH numStripesW numStripesC : Nat)
deriving DecidableEq

/-- Parsed commands of the four queues (§4.7 command emission), each carrying
its agent id and stripe id, or a counter and target for `WaitForCounter`. -/
inductive CommandIR where
  | loadIfmStripe (agentId stripeId : Nat)
  | loadWgtStripe (agentId stripeId : Nat)
  | loadPleCode (agentId : Nat)
  | storeOfmStripe (agentId stripeId : Nat)
  | programMceStripe (agentId stripeId : Nat)
  | configMceif (agentId : Nat)
  | startMceStripe (agentId stripeId : Nat)
  | waitForCounter (counter target : Nat)
  | startPleStripe (agentId stripeId : Nat)
deriving DecidableEq

/-- The parsed `Cascade` section: agents plus the four command queues. -/
structure CascadeIR where
  agents : List AgentIR
  dmaRdCmds : List CommandIR
  dmaWrCmds : List CommandIR
  mceCmds : List CommandIR
  pleCmds : List CommandIR
deriving DecidableEq

/-- A version triple. -/
structure CsVersion where
  major : Nat
  minor : Nat
  patch : Nat
deriving DecidableEq

/-- A parsed command stream: version-stamped header plus one cascade section. -/
structure CommandStreamIR where
  version : CsVersion
  cascade : CascadeIR
deriving DecidableEq

/-- The stream magic number. -/
def csMagic : Nat := 0x0E705753

/-- The current major version; consumers reject any other major. -/
def csMajorVersion : Nat := 1

/-- The section kind tag of a `Cascade` section. -/
def cascadeSectionKind : Nat := 0

/-- Binary encoding of one agent: a tag byte then the fields. -/
def encAgent : AgentIR → List Nat
  | .ifmStreamer d b tb ts ss nh nw nc =>
      [0] ++ enc32 d ++ enc16 b ++ enc16 tb ++ enc16 ts ++ enc16 ss ++
        enc16 nh ++ enc16 nw ++ enc16 nc
  | .wgtStreamer b mb tb ts ss e =>
      [1] ++ enc16 b ++ enc16 mb ++ enc16 tb ++ enc16 ts ++ enc16 ss ++ enc16 e
  | .mceScheduler bw bh noh now noc nic k =>
      [2] ++ enc16 bw ++ enc16 bh ++ enc16 noh ++ enc16 now ++ enc16 noc ++
        enc16 nic ++ enc16 k
  | .pleLoader k s => [3] ++ enc16 k ++ enc16 s
  | .pleScheduler z k ks nh nw nc =>
      [4] ++ enc16 z ++ enc16 k ++ enc16 ks ++ enc16 nh ++ enc16 nw ++ enc16 nc
  | .ofmStreamer d b tb ts ss nh nw nc =>
      [5] ++ enc32 d ++ enc16 b ++ enc16 tb ++ enc16 ts ++ enc16 ss ++
        enc16 nh ++ enc16 nw ++ enc16 nc

/-- Binary decoding of one agent. -/
def parseAgent (bs : List Nat) : Option (AgentIR × List Nat) := do
  let (t, bs) ← decU8 bs
  match t with
  | 0 => do
      let (d, bs) ← dec32 bs
      let (b, bs) ← dec16 bs
      let (tb, bs) ← dec16 bs
      let (ts, bs) ← dec16 bs
      let (ss, bs) ← dec16 bs
      let (nh, bs) ← dec16 bs
      let (nw, bs) ← dec16 bs
      let (nc, bs) ← dec16 bs
      some (.ifmStreamer d b tb ts ss nh nw nc, bs)
  | 1 => do
      let (b, bs) ← dec16 bs
      let (mb, bs) ← dec16 bs
      let (tb, bs) ← dec16 bs
      let (ts, bs) ← dec16 bs
      let (ss, bs) ← dec16 bs
      let (e, bs) ← dec16 bs
      some (.wgtStreamer b mb tb ts ss e, bs)
  | 2 => do
      let (bw, bs) ← dec16 bs
      let (bh, bs) ← dec16 bs
      let (noh, bs) ← dec16 bs
      let (now, bs) ← dec16 bs
      let (noc, bs) ← dec16 bs
      let (nic, bs) ← dec16 bs
      let (k, bs) ← dec16 bs
      some (.mceScheduler bw bh noh now noc nic k, bs)
  | 3 => do
      let (k, bs) ← dec16 bs
      let (s, bs) ← dec16 bs
      some (.pleLoader k s, bs)
  | 4 => do
      let (z, bs) ← dec16 bs
      let (k, bs) ← dec16 bs
      let (ks, bs) ← dec16 bs
      let (nh, bs) ← dec16 bs
      let (nw, bs) ← dec16 bs
      let (nc, bs) ← dec16 bs
      some (.pleScheduler z k ks nh nw nc, bs)
  | 5 => do
      let (d, bs) ← dec32 bs
      let (b, bs) ← dec16 bs
      let (tb, bs) ← dec16 bs
      let (ts, bs) ← dec16 bs
      let (ss, bs) ← dec16 bs
      let (nh, bs) ← dec16 bs
      let (nw, bs) ← dec16 bs
      let (nc, bs) ← dec16 bs
      some (.ofmStreamer d b tb ts ss nh nw nc, bs)
  | _ => none

/-- Binary encoding of one command: a tag byte then the fields. -/
def encCommand : CommandIR → List Nat
  | .loadIfmStripe a s => [0] ++ enc16 a ++ enc16 s
  | .loadWgtStripe a s => [1] ++ enc16 a ++ enc16 s
  | .loadPleCode a => [2] ++ enc16 a
  | .storeOfmStripe a s => [3] ++ enc16 a ++ enc16 s
  | .programMceStripe a s => [4] ++ enc16 a ++ enc16 s
  | .configMceif a => [5] ++ enc16 a
  | .startMceStripe a s => [6] ++ enc16 a ++ enc16 s
  | .waitForCounter c t => [7] ++ enc16 c ++ enc16 t
  | .startPleStripe a s => [8] ++ enc16 a ++ enc16 s

/-- Binary decoding of one command. -/
def parseCommand (bs : List Nat) : Option (CommandIR × List Nat) := do
  let (t, bs) ← decU8 bs
  match t with
  | 0 => do
      let (a, bs) ← dec16 bs
      let (s, bs) ← dec16 bs
      some (.loadIfmStripe a s, bs)
  | 1 => do
      let (a, bs) ← dec16 bs
      let (s, bs) ← dec16 bs
      some (.loadWgtStripe a s, bs)
  | 2 => do
      let (a, bs) ← dec16 bs
      some (.loadPleCode a, bs)
  | 3 => do
      let (a, bs) ← dec16 bs
      let (s, bs) ← dec16 bs
      some (.storeOfmStripe a s, bs)
  | 4 => do
      let (a, bs) ← dec16 bs
      let (s, bs) ← dec16 bs
      some (.programMceStripe a s, bs)
  | 5 => do
      let (a, bs) ← dec16 bs
      some (.configMceif a, bs)
  | 6 => do
      let (a, bs) ← dec16 bs
      let (s, bs) ← dec16 bs
      some (.startMceStripe a s, bs)
  | 7 => do
      let (c, bs) ← dec16 bs
      let (t2, bs) ← dec16 bs
      some (.waitForCounter c t2, bs)
  | 8 => do
      let (a, bs) ← dec16 bs
      let (s, bs) ← dec16 bs
      some (.startPleStripe a s, bs)
  | _ => none

/-- Parse `n` consecutive items with the given item parser. -/
def parseN (p : List Nat → Option (α × List Nat)) :
    Nat → List Nat → Option (List α × List Nat)
  | 0, bs => some ([], bs)
  | n + 1, bs =>
      match p bs with
      | none => none
      | some (a, bs2) =>
          match parseN p n bs2 with
          | none => none
          | some (as, bs3) => some (a :: as, bs3)

/-- The body bytes of a `Cascade` section: the agents then the four command
queues, contiguous. -/
def cascadeBodiesBytes (c : CascadeIR) : List Nat :=
  c.agents.flatMap encAgent ++
    (c.dmaRdCmds.flatMap encCommand ++
      (c.dmaWrCmds.flatMap encCommand ++
        (c.mceCmds.flatMap encCommand ++ c.pleCmds.flatMap encCommand)))

/-- The eleven 32-bit header words of a `Cascade` payload: `total_size`,
`agents_offset`, `num_agents` and four `(cmds_offset, num_cmds)` pairs, every
offset byte-relative to the start of the section (the header is 44 bytes). -/
def cascadeHeaderWords (c : CascadeIR) : List Nat :=
  let ab := (c.agents.flatMap encAgent).length
  let rb := (c.dmaRdCmds.flatMap encCommand).length
  let wb := (c.dmaWrCmds.flatMap encCommand).length
  let mb := (c.mceCmds.flatMap encCommand).length
  let pb := (c.pleCmds.flatMap encCommand).length
  [44 + ab + rb + wb + mb + pb,
   44, c.agents.length,
   44 + ab, c.dmaRdCmds.length,
   44 + ab + rb, c.dmaWrCmds.length,
   44 + ab + rb + wb, c.mceCmds.length,
   44 + ab + rb + wb + mb, c.pleCmds.length]

/-- The serialised `Cascade` payload: the header words then the bodies. -/
def encCascadePayload (c : CascadeIR) : List Nat :=
  (cascadeHeaderWords c).flatMap enc32 ++ cascadeBodiesBytes c

/-- Parse the agent array and the four command queues given their counts. -/
def parseCascadeBodies (numAgents numRd numWr numMce numPle : Nat) (bs : List Nat) :
    Option (CascadeIR × List Nat) := do
  let (agents, bs) ← parseN parseAgent numAgents bs
  let (rd, bs) ← parseN parseCommand numRd bs
  let (wr, bs) ← parseN parseCommand numWr bs
  let (mce, bs) ← parseN parseCommand numMce bs
  let (ple, bs) ← parseN parseCommand numPle bs
  some (⟨agents, rd, wr, mce, ple⟩, bs)

/-- Parse the `Cascade` payload: the eleven 32-bit header words, then the
agents and commands.  The total size and the offsets are redundant with the
counts for a contiguous stream, so the parser reads the counts and walks the
arrays in order. -/
def parseCascadePayload (bs : List Nat) : Option (CascadeIR × List Nat) :=
  match parseN dec32 11 bs with
  | some ([_totalSize, _agentsOffset, numAgents, _rdOffset, numRd, _wrOffset, numWr,
      _mceOffset, numMce, _pleOffset, numPle], bs) =>
      parseCascadeBodies numAgents numRd numWr numMce numPle bs
  | _ => none

/-- The five 32-bit words before the section payload: the magic, the version
triple, and the section kind. -/
def streamHeaderWords (ir : CommandStreamIR) : List Nat :=
  [csMagic, ir.version.major, ir.version.minor, ir.version.patch, cascadeSectionKind]

/-- Serialise a command stream: header (magic, version triple), then the
cascade section `kind, payload_bytes, payload`. -/
def serialiseBinary (ir : CommandStreamIR) : List Nat :=
  (streamHeaderWords ir).flatMap enc32 ++
    (enc32 (encCascadePayload ir.cascade).length ++ encCascadePayload ir.cascade)

/-- Parse a command-stream binary, rejecting a wrong magic, a mismatched major
version, and an unknown section kind. -/
def parseBinary (bs : List Nat) : Option CommandStreamIR :=
  match parseN dec32 5 bs with
  | some ([magic, maj, minr, pat, kind], bs) =>
      if magic ≠ csMagic then none
      else if maj ≠ csMajorVersion then none
      else if kind ≠ cascadeSectionKind then none
      else
        match dec32 bs with
        | some (_payloadBytes, bs) =>
            match parseCascadePayload bs with
            | some (c, _) => some ⟨⟨maj, minr, pat⟩, c⟩
            | none => none
        | none => none
  | _ => none

/-- Is a 16-bit field value in range. -/
def isU16 (n : Nat) : Bool := decide (n < 65536)

/-- Is a 32-bit field value in range. -/
def isU32 (n : Nat) : Bool := decide (n < 4294967296)

/-- Well-formedness of an agent: every field fits its width. -/
def wfAgent : AgentIR → Bool
  | .ifmStreamer d b tb ts ss nh nw nc =>
      isU32 d && isU16 b && isU16 tb && isU16 ts && isU16 ss &&
        isU16 nh && isU16 nw && isU16 nc
  | .wgtStreamer b mb tb ts ss e =>
      isU16 b && isU16 mb && isU16 tb && isU16 ts && isU16 ss && isU16 e
  | .mceScheduler bw bh noh now noc nic k =>
      isU16 bw && isU16 bh && isU16 noh && isU16 now && isU16 noc &&
        isU16 nic && isU16 k
  | .pleLoader k s => isU16 k && isU16 s
  | .pleScheduler z k ks nh nw nc =>
      isU16 z && isU16 k && isU16 ks && isU16 nh && isU16 nw && isU16 nc
  | .ofmStreamer d b tb ts ss nh nw nc =>
      isU32 d && isU16 b && isU16 tb && isU16 ts && isU16 ss &&
        isU16 nh && isU16 nw && isU16 nc

/-- Well-formedness of a command: every field fits its width. -/
def wfCommand : CommandIR → Bool
  | .loadIfmStripe a s => isU16 a && isU16 s
  | .loadWgtStripe a s => isU16 a && isU16 s
  | .loadPleCode a => isU16 a
  | .storeOfmStripe a s => isU16 a && isU16 s
  | .programMceStripe a s => isU16 a && isU16 s
  | .configMceif a => isU16 a
  | .startMceStripe a s => isU16 a && isU16 s
  | .waitForCounter c t => isU16 c && isU16 t
  | .startPleStripe a s => isU16 a && isU16 s

/-- Well-formedness of a cascade section: agents and commands well-formed and
the array counts representable. -/
def wfCascade (c : CascadeIR) : Bool :=
  c.agents.all wfAgent && c.dmaRdCmds.all wfCommand && c.dmaWrCmds.all wfCommand &&
  c.mceCmds.all wfCommand && c.pleCmds.all wfCommand &&
  isU32 c.agents.length && isU32 c.dmaRdCmds.length && isU32 c.dmaWrCmds.length &&
  isU32 c.mceCmds.length && isU32 c.pleCmds.length

/-- Well-formedness of a command stream: the current major version, a
representable minor/patch, and a well-formed cascade. -/
def wfIR (ir : CommandStreamIR) : Bool :=
  decide (ir.version.major = csMajorVersion) && isU32 ir.version.minor &&
    isU32 ir.version.patch && wfCascade ir.cascade

/-- The element names of the XML form (§4.6: `STREAM`, `CASCADE`, `AGENTS`,
the four command-queue elements, and one element per agent or command kind). -/
inductive XmlTag where
  | STREAM
  | VERSION
  | CASCADE
  | AGENTS
  | DMA_RD_COMMANDS
  | DMA_WR_COMMANDS
  | MCE_COMMANDS
  | PLE_COMMANDS
  | IFM_STREAMER
  | WGT_STREAMER
  | MCE_SCHEDULER
  | PLE_LOADER
  | PLE_SCHEDULER
  | OFM_STREAMER
  | LOAD_IFM_STRIPE
  | LOAD_WGT_STRIPE
  | LOAD_PLE_CODE
  | STORE_OFM_STRIPE
  | PROGRAM_MCE_STRIPE
  | CONFIG_MCEIF
  | START_MCE_STRIPE
  | WAIT_FOR_COUNTER
  | START_PLE_STRIPE
deriving DecidableEq

/-- The XML tree: elements with tagged names and typed numeric leaves. -/
inductive Xml where
  | elem (tag : XmlTag) (children : List Xml)
  | num (value : Nat)

/-- XML form of one agent. -/
def xmlOfAgent : AgentIR → Xml
  | .ifmStreamer d b tb ts ss nh nw nc =>
      .elem .IFM_STREAMER [.num d, .num b, .num tb, .num ts, .num ss,
        .num nh, .num nw, .num nc]
  | .wgtStreamer b mb tb ts ss e =>
      .elem .WGT_STREAMER [.num b, .num mb, .num tb, .num ts, .num ss, .num e]
  | .mceScheduler bw bh noh now noc nic k =>
      .elem .MCE_SCHEDULER [.num bw, .num bh, .num noh, .num now, .num noc,
        .num nic, .num k]
  | .pleLoader k s => .elem .PLE_LOADER [.num k, .num s]
  | .pleScheduler z k ks nh nw nc =>
      .elem .PLE_SCHEDULER [.num z, .num k, .num ks, .num nh, .num nw, .num nc]
  | .ofmStreamer d b tb ts ss nh nw nc =>
      .elem .OFM_STREAMER [.num d, .num b, .num tb, .num ts, .num ss,
        .num nh, .num nw, .num nc]

/-- Parse one agent back from its XML form. -/
def agentOfXml : Xml → Option AgentIR
  | .elem .IFM_STREAMER [.num d, .num b, .num tb, .num ts, .num ss,
      .num nh, .num nw, .num nc] => some (.ifmStreamer d b tb ts ss nh nw nc)
  | .elem .WGT_STREAMER [.num b, .num mb, .num tb, .num ts, .num ss, .num e] =>
      some (.wgtStreamer b mb tb ts ss e)
  | .elem .MCE_SCHEDULER [.num bw, .num bh, .num noh, .num now, .num noc,
      .num nic, .num k] => some (.mceScheduler bw bh noh now noc nic k)
  | .elem .PLE_LOADER [.num k, .num s] => some (.pleLoader k s)
  | .elem .PLE_SCHEDULER [.num z, .num k, .num ks, .num nh, .num nw, .num nc] =>
      some (.pleScheduler z k ks nh nw nc)
  | .elem .OFM_STREAMER [.num d, .num b, .num tb, .num ts, .num ss,
      .num nh, .num nw, .num nc] => some (.ofmStreamer d b tb ts ss nh nw nc)
  | _ => none

/-- XML form of one command. -/
def xmlOfCommand : CommandIR → Xml
  | .loadIfmStripe a s => .elem .LOAD_IFM_STRIPE [.num a, .num s]
  | .loadWgtStripe a s => .elem .LOAD_WGT_STRIPE [.num a, .num s]
  | .loadPleCode a => .elem .LOAD_PLE_CODE [.num a]
  | .storeOfmStripe a s => .elem .STORE_OFM_STRIPE [.num a, .num s]
  | .programMceStripe a s => .elem .PROGRAM_MCE_STRIPE [.num a, .num s]
  | .configMceif a => .elem .CONFIG_MCEIF [.num a]
  | .startMceStripe a s => .elem .START_MCE_STRIPE [.num a, .num s]
  | .waitForCounter c t => .elem .WAIT_FOR_COUNTER [.num c, .num t]
  | .startPleStripe a s => .elem .START_PLE_STRIPE [.num a, .num s]

/-- Parse one command back from its XML form. -/
def commandOfXml : Xml → Option CommandIR
  | .elem .LOAD_IFM_STRIPE [.num a, .num s] => some (.loadIfmStripe a s)
  | .elem .LOAD_WGT_STRIPE [.num a, .num s] => some (.loadWgtStripe a s)
  | .elem .LOAD_PLE_CODE [.num a] => some (.loadPleCode a)
  | .elem .STORE_OFM_STRIPE [.num a, .num s] => some (.storeOfmStripe a s)
  | .elem .PROGRAM_MCE_STRIPE [.num a, .num s] => some (.programMceStripe a s)
  | .elem .CONFIG_MCEIF [.num a] => some (.configMceif a)
  | .elem .START_MCE_STRIPE [.num a, .num s] => some (.startMceStripe a s)
  | .elem .WAIT_FOR_COUNTER [.num c, .num t] => some (.waitForCounter c t)
  | .elem .START_PLE_STRIPE [.num a, .num s] => some (.startPleStripe a s)
  | _ => none

/-- Decode a list of children, all of one kind. -/
def decodeList (f : α → Option β) : List α → Option (List β)
  | [] => some []
  | x :: xs =>
      match f x with
      | none => none
      | some b =>
          match decodeList f xs with
          | none => none
          | some bs => some (b :: bs)

/-- The XML form of a parsed command stream: a `STREAM` element holding the
version and the `CASCADE` element with the agents and the four command queues. -/
def xmlOfIR (ir : CommandStreamIR) : Xml :=
  .elem .STREAM [
    .elem .VERSION [.num ir.version.major, .num ir.version.minor, .num ir.version.patch],
    .elem .CASCADE [
      .elem .AGENTS (ir.cascade.agents.map xmlOfAgent),
      .elem .DMA_RD_COMMANDS (ir.cascade.dmaRdCmds.map xmlOfCommand),
      .elem .DMA_WR_COMMANDS (ir.cascade.dmaWrCmds.map xmlOfCommand),
      .elem .MCE_COMMANDS (ir.cascade.mceCmds.map xmlOfCommand),
      .elem .PLE_COMMANDS (ir.cascade.pleCmds.map xmlOfCommand)]]

/-- Parse a command stream back from its XML form. -/
def irOfXml : Xml → Option CommandStreamIR
  | .elem .STREAM [
      .elem .VERSION [.num maj, .num minr, .num pat],
      .elem .CASCADE [
        .elem .AGENTS ax,
        .elem .DMA_RD_COMMANDS rx,
        .elem .DMA_WR_COMMANDS wx,
        .elem .MCE_COMMANDS mx,
        .elem .PLE_COMMANDS px]] => do
      let agents ← decodeList agentOfXml ax
      let rd ← decodeList commandOfXml rx
      let wr ← decodeList commandOfXml wx
      let mce ← decodeList commandOfXml mx
      let ple ← decodeList commandOfXml px
      some ⟨⟨maj, minr, pat⟩, ⟨agents, rd, wr, mce, ple⟩⟩
  | _ => none

/-- The full round trip of the claim: binary → parsed IR → XML → parsed IR →
binary. -/
def binaryToXmlToBinary (bytes : List Nat) : Option (List Nat) := do
  let ir ← parseBinary bytes
  let ir2 ← irOfXml (xmlOfIR ir)
  some (serialiseBinary ir2)

theorem dec16_enc16_mod (n : Nat) (r : List Nat) :
    dec16 (enc16 n ++ r) = some (n % 65536, r) := by
  simp only [enc16, dec16, List.cons_append, List.nil_append, Option.some.injEq,
    Prod.mk.injEq, and_true]
  omega

theorem dec16_enc16 (n : Nat) (r : List Nat) (h : n < 65536) :
    dec16 (enc16 n ++ r) = some (n, r) := by
  rw [dec16_enc16_mod, Nat.mod_eq_of_lt h]

theorem dec32_enc32_mod (n : Nat) (r : List Nat) :
    dec32 (enc32 n ++ r) = some (n % 4294967296, r) := by
  simp only [enc32, dec32, List.cons_append, List.nil_append, Option.some.injEq,
    Prod.mk.injEq, and_true]
  omega

theorem dec32_enc32 (n : Nat) (r : List Nat) (h : n < 4294967296) :
    dec32 (enc32 n ++ r) = some (n, r) := by
  rw [dec32_enc32_mod, Nat.mod_eq_of_lt h]

theorem parseN_encList {α β : Type} (p : List Nat → Option (β × List Nat))
    (enc : α → List Nat) (f : α → β) (xs : List α)
    (hx : ∀ x ∈ xs, ∀ s, p (enc x ++ s) = some (f x, s)) (r : List Nat) :
    parseN p xs.length (xs.flatMap enc ++ r) = some (xs.map f, r) := by
  induction xs with
  | nil => simp [parseN]
  | cons x t ih =>
      simp only [List.flatMap_cons, List.length_cons, List.append_assoc, List.map_cons,
        parseN, hx x (List.mem_cons_self x t),
        ih (fun y hy s => hx y (List.mem_cons_of_mem x hy) s)]

set_option maxHeartbeats 1600000 in
theorem parseAgent_encAgent (a : AgentIR) (r : List Nat) (h : wfAgent a = true) :
    parseAgent (encAgent a ++ r) = some (a, r) := by
  cases a with
  | ifmStreamer d b tb ts ss nh nw nc =>
      simp only [wfAgent, isU16, isU32, Bool.and_eq_true, decide_eq_true_eq] at h
      obtain ⟨⟨⟨⟨⟨⟨⟨h1, h2⟩, h3⟩, h4⟩, h5⟩, h6⟩, h7⟩, h8⟩ := h
      simp only [encAgent, parseAgent, decU8, List.cons_append, List.nil_append, List.append_assoc,
        dec32_enc32_mod, dec16_enc16_mod, Option.bind_eq_bind, Option.some_bind,
        Nat.mod_eq_of_lt h1, Nat.mod_eq_of_lt h2, Nat.mod_eq_of_lt h3, Nat.mod_eq_of_lt h4,
        Nat.mod_eq_of_lt h5, Nat.mod_eq_of_lt h6, Nat.mod_eq_of_lt h7, Nat.mod_eq_of_lt h8]
  | wgtStreamer b mb tb ts ss e =>
      simp only [wfAgent, isU16, Bool.and_eq_true, decide_eq_true_eq] at h
      obtain ⟨⟨⟨⟨⟨h1, h2⟩, h3⟩, h4⟩, h5⟩, h6⟩ := h
      simp only [encAgent, parseAgent, decU8, List.cons_append, List.nil_append, List.append_assoc,
        dec16_enc16_mod, Option.bind_eq_bind, Option.some_bind,
        Nat.mod_eq_of_lt h1, Nat.mod_eq_of_lt h2, Nat.mod_eq_of_lt h3, Nat.mod_eq_of_lt h4,
        Nat.mod_eq_of_lt h5, Nat.mod_eq_of_lt h6]
  | mceScheduler bw bh noh now noc nic k =>
      simp only [wfAgent, isU16, Bool.and_eq_true, decide_eq_true_eq] at h
      obtain ⟨⟨⟨⟨⟨⟨h1, h2⟩, h3⟩, h4⟩, h5⟩, h6⟩, h7⟩ := h
      simp only [encAgent, parseAgent, decU8, List.cons_append, List.nil_append, List.append_assoc,
        dec16_enc16_mod, Option.bind_eq_bind, Option.some_bind,
        Nat.mod_eq_of_lt h1, Nat.mod_eq_of_lt h2, Nat.mod_eq_of_lt h3, Nat.mod_eq_of_lt h4,
        Nat.mod_eq_of_lt h5, Nat.mod_eq_of_lt h6, Nat.mod_eq_of_lt h7]
  | pleLoader k s =>
      simp only [wfAgent, isU16, Bool.and_eq_true, decide_eq_true_eq] at h
      obtain ⟨h1, h2⟩ := h
      simp only [encAgent, parseAgent, decU8, List.cons_append, List.nil_append, List.append_assoc,
        dec16_enc16_mod, Option.bind_eq_bind, Option.some_bind,
        Nat.mod_eq_of_lt h1, Nat.mod_eq_of_lt h2]
  | pleScheduler z k ks nh nw nc =>
      simp only [wfAgent, isU16, Bool.and_eq_true, decide_eq_true_eq] at h
      obtain ⟨⟨⟨⟨⟨h1, h2⟩, h3⟩, h4⟩, h5⟩, h6⟩ := h
      simp only [encAgent, parseAgent, decU8, List.cons_append, List.nil_append, List.append_assoc,
        dec16_enc16_mod, Option.bind_eq_bind, Option.some_bind,
        Nat.mod_eq_of_lt h1, Nat.mod_eq_of_lt h2, Nat.mod_eq_of_lt h3, Nat.mod_eq_of_lt h4,
        Nat.mod_eq_of_lt h5, Nat.mod_eq_of_lt h6]
  | ofmStreamer d b tb ts ss nh nw nc =>
      simp only [wfAgent, isU16, isU32, Bool.and_eq_true, decide_eq_true_eq] at h
      obtain ⟨⟨⟨⟨⟨⟨⟨h1, h2⟩, h3⟩, h4⟩, h5⟩, h6⟩, h7⟩, h8⟩ := h
      simp only [encAgent, parseAgent, decU8, List.cons_append, List.nil_append, List.append_assoc,
        dec32_enc32_mod, dec16_enc16_mod, Option.bind_eq_bind, Option.some_bind,
        Nat.mod_eq_of_lt h1, Nat.mod_eq_of_lt h2, Nat.mod_eq_of_lt h3, Nat.mod_eq_of_lt h4,
        Nat.mod_eq_of_lt h5, Nat.mod_eq_of_lt h6, Nat.mod_eq_of_lt h7, Nat.mod_eq_of_lt h8]
set_option maxHeartbeats 1600000 in
theorem parseCommand_encCommand (c : CommandIR) (r : List Nat) (h : wfCommand c = true) :
    parseCommand (encCommand c ++ r) = some (c, r) := by
  cases c with
  | loadIfmStripe a s =>
      simp only [wfCommand, isU16, Bool.and_eq_true, decide_eq_true_eq] at h
      obtain ⟨h1, h2⟩ := h
      simp only [encCommand, parseCommand, decU8, List.cons_append, List.nil_append,
        List.append_assoc, dec16_enc16_mod, Option.bind_eq_bind, Option.some_bind,
        Nat.mod_eq_of_lt h1, Nat.mod_eq_of_lt h2]
  | loadWgtStripe a s =>
      simp only [wfCommand, isU16, Bool.and_eq_true, decide_eq_true_eq] at h
      obtain ⟨h1, h2⟩ := h
      simp only [encCommand, parseCommand, decU8, List.cons_append, List.nil_append,
        List.append_assoc, dec16_enc16_mod, Option.bind_eq_bind, Option.some_bind,
        Nat.mod_eq_of_lt h1, Nat.mod_eq_of_lt h2]
  | loadPleCode a =>
      simp only [wfCommand, isU16, decide_eq_true_eq] at h
      simp only [encCommand, parseCommand, decU8, List.cons_append, List.nil_append,
        List.append_assoc, dec16_enc16_mod, Option.bind_eq_bind, Option.some_bind,
        Nat.mod_eq_of_lt h]
  | storeOfmStripe a s =>
      simp only [wfCommand, isU16, Bool.and_eq_true, decide_eq_true_eq] at h
      obtain ⟨h1, h2⟩ := h
      simp only [encCommand, parseCommand, decU8, List.cons_append, List.nil_append,
        List.append_assoc, dec16_enc16_mod, Option.bind_eq_bind, Option.some_bind,
        Nat.mod_eq_of_lt h1, Nat.mod_eq_of_lt h2]
  | programMceStripe a s =>
      simp only [wfCommand, isU16, Bool.and_eq_true, decide_eq_true_eq] at h
      obtain ⟨h1, h2⟩ := h
      simp only [encCommand, parseCommand, decU8, List.cons_append, List.nil_append,
        List.append_assoc, dec16_enc16_mod, Option.bind_eq_bind, Option.some_bind,
        Nat.mod_eq_of_lt h1, Nat.mod_eq_of_lt h2]
  | configMceif a =>
      simp only [wfCommand, isU16, decide_eq_true_eq] at h
      simp only [encCommand, parseCommand, decU8, List.cons_append, List.nil_append,
        List.append_assoc, dec16_enc16_mod, Option.bind_eq_bind, Option.some_bind,
        Nat.mod_eq_of_lt h]
  | startMceStripe a s =>
      simp only [wfCommand, isU16, Bool.and_eq_true, decide_eq_true_eq] at h
      obtain ⟨h1, h2⟩ := h
      simp only [encCommand, parseCommand, decU8, List.cons_append, List.nil_append,
        List.append_assoc, dec16_enc16_mod, Option.bind_eq_bind, Option.some_bind,
        Nat.mod_eq_of_lt h1, Nat.mod_eq_of_lt h2]
  | waitForCounter c t =>
      simp only [wfCommand, isU16, Bool.and_eq_true, decide_eq_true_eq] at h
      obtain ⟨h1, h2⟩ := h
      simp only [encCommand, parseCommand, decU8, List.cons_append, List.nil_append,
        List.append_assoc, dec16_enc16_mod, Option.bind_eq_bind, Option.some_bind,
        Nat.mod_eq_of_lt h1, Nat.mod_eq_of_lt h2]
  | startPleStripe a s =>
      simp only [wfCommand, isU16, Bool.and_eq_true, decide_eq_true_eq] at h
      obtain ⟨h1, h2⟩ := h
      simp only [encCommand, parseCommand, decU8, List.cons_append, List.nil_append,
        List.append_assoc, dec16_enc16_mod, Option.bind_eq_bind, Option.some_bind,
        Nat.mod_eq_of_lt h1, Nat.mod_eq_of_lt h2]


theorem parseCascadeBodies_enc (c : CascadeIR) (R : List Nat) (h : wfCascade c = true) :
    parseCascadeBodies c.agents.length c.dmaRdCmds.length c.dmaWrCmds.length
      c.mceCmds.length c.pleCmds.length (cascadeBodiesBytes c ++ R) = some (c, R) := by
  simp only [wfCascade, Bool.and_eq_true, List.all_eq_true, decide_eq_true_eq, isU32] at h
  obtain ⟨⟨⟨⟨⟨⟨⟨⟨⟨ha, hr⟩, hw⟩, hm⟩, hp⟩, _⟩, _⟩, _⟩, _⟩, _⟩ := h
  simp only [cascadeBodiesBytes, List.append_assoc, parseCascadeBodies,
    Option.bind_eq_bind, Option.some_bind, List.map_id,
    parseN_encList parseAgent encAgent id c.agents
      (fun a hav s => parseAgent_encAgent a s (ha a hav)),
    parseN_encList parseCommand encCommand id c.dmaRdCmds
      (fun x hx s => parseCommand_encCommand x s (hr x hx)),
    parseN_encList parseCommand encCommand id c.dmaWrCmds
      (fun x hx s => parseCommand_encCommand x s (hw x hx)),
    parseN_encList parseCommand encCommand id c.mceCmds
      (fun x hx s => parseCommand_encCommand x s (hm x hx)),
    parseN_encList parseCommand encCommand id c.pleCmds
      (fun x hx s => parseCommand_encCommand x s (hp x hx))]

theorem parseCascadePayload_enc (c : CascadeIR) (R : List Nat) (h : wfCascade c = true) :
    parseCascadePayload (encCascadePayload c ++ R) = some (c, R) := by
  have hcounts := h
  simp only [wfCascade, Bool.and_eq_true, decide_eq_true_eq, isU32] at hcounts
  obtain ⟨⟨⟨⟨⟨_, hna⟩, hnr⟩, hnw⟩, hnm⟩, hnp⟩ := hcounts
  have hlen : (cascadeHeaderWords c).length = 11 := rfl
  simp only [encCascadePayload, List.append_assoc, parseCascadePayload]
  rw [← hlen,
    parseN_encList dec32 enc32 (fun n => n % 4294967296) (cascadeHeaderWords c)
      (fun x _ s => dec32_enc32_mod x s)]
  simp only [cascadeHeaderWords, List.map_cons, List.map_nil,
    Nat.mod_eq_of_lt hna, Nat.mod_eq_of_lt hnr, Nat.mod_eq_of_lt hnw,
    Nat.mod_eq_of_lt hnm, Nat.mod_eq_of_lt hnp]
  exact parseCascadeBodies_enc c R h

theorem parseBinary_serialiseBinary (ir : CommandStreamIR) (h : wfIR ir = true) :
    parseBinary (serialiseBinary ir) = some ir := by
  obtain ⟨⟨maj, minr, pat⟩, c⟩ := ir
  simp only [wfIR, Bool.and_eq_true, decide_eq_true_eq, isU32] at h
  obtain ⟨⟨⟨hmaj, hmin⟩, hpat⟩, hc⟩ := h
  subst hmaj
  have hpayload := parseCascadePayload_enc c [] hc
  rw [List.append_nil] at hpayload
  have hlen : (streamHeaderWords ⟨⟨csMajorVersion, minr, pat⟩, c⟩).length = 5 := rfl
  simp only [serialiseBinary, List.append_assoc, parseBinary]
  rw [← hlen,
    parseN_encList dec32 enc32 (fun n => n % 4294967296)
      (streamHeaderWords ⟨⟨csMajorVersion, minr, pat⟩, c⟩)
      (fun x _ s => dec32_enc32_mod x s)]
  simp only [streamHeaderWords, List.map_cons, List.map_nil,
    Nat.mod_eq_of_lt hmin, Nat.mod_eq_of_lt hpat]
  norm_num [csMagic, csMajorVersion, cascadeSectionKind]
  rw [dec32_enc32_mod]
  simp only [hpayload]

theorem agentOfXml_xmlOfAgent (a : AgentIR) : agentOfXml (xmlOfAgent a) = some a := by
  cases a <;> rfl

theorem commandOfXml_xmlOfCommand (c : CommandIR) : commandOfXml (xmlOfCommand c) = some c := by
  cases c <;> rfl

theorem decodeList_map {α β : Type} (f : β → Option α) (g : α → β)
    (h : ∀ x, f (g x) = some x) (xs : List α) : decodeList f (xs.map g) = some xs := by
  induction xs with
  | nil => rfl
  | cons x t ih => simp [decodeList, h, ih]

theorem irOfXml_xmlOfIR (ir : CommandStreamIR) : irOfXml (xmlOfIR ir) = some ir := by
  obtain ⟨⟨maj, minr, pat⟩, c⟩ := ir
  simp only [xmlOfIR, irOfXml, Option.bind_eq_bind, Option.some_bind,
    decodeList_map agentOfXml xmlOfAgent agentOfXml_xmlOfAgent,
    decodeList_map commandOfXml xmlOfCommand commandOfXml_xmlOfCommand]

/-- **C9**: for every well-formed command-stream binary of the current version
(the serialisation of a well-formed parsed stream), converting binary → parsed
IR → XML → parsed IR → binary yields output byte-identical to the original
binary. -/
theorem claim_C9_binary_xml_round_trip (ir : CommandStreamIR) (h : wfIR ir = true) :
    binaryToXmlToBinary (serialiseBinary ir) = some (serialiseBinary ir) := by
  simp only [binaryToXmlToBinary, parseBinary_serialiseBinary ir h, Option.bind_eq_bind,
    Option.some_bind, irOfXml_xmlOfIR]

/-- A concrete well-formed stream: one agent of each kind and a few commands
in each queue. -/
def c9Ex : CommandStreamIR :=
  { version := ⟨1, 2, 3⟩
    cascade :=
      { agents := [.ifmStreamer 4096 1 0 2 256 2 2 1, .wgtStreamer 2 3 32 2 64 16,
          .mceScheduler 16 16 2 2 1 1 7, .pleLoader 7 100, .pleScheduler 0 7 100 2 2 1,
          .ofmStreamer 8192 4 0 2 256 2 2 1]
        dmaRdCmds := [.loadIfmStripe 0 0, .loadWgtStripe 1 0]
        dmaWrCmds := [.storeOfmStripe 5 0]
        mceCmds := [.configMceif 2, .startMceStripe 2 0]
        pleCmds := [.waitForCounter 0 1, .startPleStripe 4 0] } }

/-- Witness for C9 at the concrete stream `c9Ex`. -/
theorem claim_C9_round_trip_witness :
    binaryToXmlToBinary (serialiseBinary c9Ex) = some (serialiseBinary c9Ex) :=
  claim_C9_binary_xml_round_trip c9Ex (by decide)

end EthosN
